import Mathlib

/-!
Verification of the mindflow OAuth 2.1 authorization-server subsystem.

The Python source under `backend/app/oauth/` is shallowly embedded below:
pure helpers become Lean functions, database tables become lists of rows,
the Redis cache becomes an association list, and each stateful operation
threads its store explicitly.  Wall-clock time is an explicit `Int`
parameter (seconds); random values (tokens, codes, jti) are explicit
arguments.
-/

namespace Mindflow

/-! ## Python string primitives used by the source -/

/-- Split a character list at every character satisfying `p`, keeping
empty pieces (the list of pieces is never empty). -/
def splitChar (p : Char → Bool) : List Char → List (List Char)
  | [] => [[]]
  | c :: rest =>
    match splitChar p rest with
    | [] => [[]]
    | cur :: acc => if p c then [] :: cur :: acc else (c :: cur) :: acc

/-- Python `str.strip()`: drop leading and trailing whitespace. -/
def pyStrip (s : String) : String :=
  String.mk
    (((s.data.dropWhile Char.isWhitespace).reverse.dropWhile
      Char.isWhitespace).reverse)

/-- Python `str.split()` (no argument): split on whitespace runs, dropping
empty pieces.  Used for space-separated scope strings. -/
def pySplitWs (s : String) : List String :=
  ((splitChar Char.isWhitespace s.data).filter
    (fun cs => ¬ cs.isEmpty)).map String.mk

/-- Python `[u.strip() for u in s.split(",")]`: comma-separated list
(empty pieces kept, as `str.split(",")` keeps them) with surrounding
whitespace stripped (crud.py `validate_redirect_uri`). -/
def splitCommaStrip (s : String) : List String :=
  (splitChar (fun c => c == ',') s.data).map (fun cs => pyStrip (String.mk cs))

/-- Python `set(requested.split()).issubset(set(allowed.split()))`
(crud.py `validate_scopes`). -/
def scopeSubset (requested allowed : String) : Bool :=
  (pySplitWs requested).all (fun t => (pySplitWs allowed).contains t)

/-- Python truthiness of an `Optional[str]`: `not x` is true for `None`
and for the empty string (token.py parameter checks). -/
def optFalsy : Option String → Bool
  | none => true
  | some s => s.isEmpty

/-! ## Data model (models.py) -/

/-- Row of table `oauth_clients` (models.py `OAuthClient`); only the columns
this subsystem reads. `redirect_uris` is comma-separated, `allowed_scopes`
space-separated, exactly as stored by the source. -/
structure OAuthClient where
  client_id : String
  client_secret : String
  client_name : String
  redirect_uris : String
  allowed_scopes : String
  logo_uri : Option String
  is_active : Bool
  deriving Repr, DecidableEq

/-- Row of table `oauth_authorization_codes` (models.py
`OAuthAuthorizationCode`). -/
structure OAuthAuthorizationCode where
  code : String
  client_id : String
  user_id : Int
  redirect_uri : String
  scope : String
  code_challenge : Option String
  code_challenge_method : Option String
  expires_at : Int
  is_used : Bool
  used_at : Option Int
  deriving Repr, DecidableEq

/-- Row of table `oauth_refresh_tokens` (models.py `OAuthRefreshToken`). -/
structure OAuthRefreshToken where
  token : String
  client_id : String
  user_id : Int
  scope : String
  is_active : Bool
  expires_at : Int
  revoked_at : Option Int
  deriving Repr, DecidableEq

/-! ## Client registry queries (crud.py `OAuthClientCRUD`) -/

namespace OAuthClientCRUD

/-- `get_by_client_id`: `select(OAuthClient).where(client_id == ...)` then
`.first()`. -/
def get_by_client_id (db : List OAuthClient) (client_id : String) :
    Option OAuthClient :=
  db.find? (fun c => c.client_id == client_id)

/-- `validate_redirect_uri`: client must exist and be active, and the uri
must be an exact member of the comma-separated registered set. -/
def validate_redirect_uri (db : List OAuthClient) (client_id redirect_uri : String) :
    Bool :=
  match get_by_client_id db client_id with
  | none => false
  | some c =>
    if ¬ c.is_active then false
    else (splitCommaStrip c.redirect_uris).contains redirect_uri

/-- `validate_scopes`: client must exist and be active, and the requested
scope set must be a subset of the allowed scope set. -/
def validate_scopes (db : List OAuthClient) (client_id requested_scopes : String) :
    Bool :=
  match get_by_client_id db client_id with
  | none => false
  | some c =>
    if ¬ c.is_active then false
    else scopeSubset requested_scopes c.allowed_scopes

end OAuthClientCRUD

/-! ## Authorization code store (crud.py `OAuthAuthorizationCodeCRUD`) -/

namespace OAuthAuthorizationCodeCRUD

/-- `create`: insert a fresh code row with a 10-minute expiry.  The random
`secrets.token_urlsafe(32)` value is the explicit `code` argument. -/
def create (db : List OAuthAuthorizationCode) (code client_id : String)
    (user_id : Int) (redirect_uri scope : String)
    (code_challenge code_challenge_method : Option String) (now : Int) :
    OAuthAuthorizationCode × List OAuthAuthorizationCode :=
  let auth_code : OAuthAuthorizationCode :=
    { code := code
      client_id := client_id
      user_id := user_id
      redirect_uri := redirect_uri
      scope := scope
      code_challenge := code_challenge
      code_challenge_method := code_challenge_method
      expires_at := now + 600
      is_used := false
      used_at := none }
  (auth_code, db ++ [auth_code])

/-- The `WHERE` clause of `validate_and_use`: code, client and redirect uri
match, row unused, and `expires_at > now`. -/
def codeMatches (now : Int) (code client_id redirect_uri : String)
    (r : OAuthAuthorizationCode) : Bool :=
  r.code == code && r.client_id == client_id && r.redirect_uri == redirect_uri &&
    r.is_used == false && now < r.expires_at

/-- `validate_and_use`: select the first unused, unexpired row matching
`code + client_id + redirect_uri`; on a hit mark it used (and stamp
`used_at`) in place and return it; on a miss return `None` and leave the
table unchanged. -/
def validate_and_use (db : List OAuthAuthorizationCode) (now : Int)
    (code client_id redirect_uri : String) :
    Option OAuthAuthorizationCode × List OAuthAuthorizationCode :=
  match db with
  | [] => (none, [])
  | r :: rest =>
    if codeMatches now code client_id redirect_uri r then
      let r' := { r with is_used := true, used_at := some now }
      (some r', r' :: rest)
    else
      let (res, rest') := validate_and_use rest now code client_id redirect_uri
      (res, r :: rest')

end OAuthAuthorizationCodeCRUD

/-! ## Refresh token store (crud.py `OAuthRefreshTokenCRUD`) -/

namespace OAuthRefreshTokenCRUD

/-- `create`: insert a fresh refresh-token row; the random
`secrets.token_urlsafe(64)` value is the explicit `token` argument and the
default `expires_delta` of the caller is passed in seconds. -/
def create (db : List OAuthRefreshToken) (token client_id : String)
    (user_id : Int) (scope : String) (now expires_delta : Int) :
    OAuthRefreshToken × List OAuthRefreshToken :=
  let refresh_token : OAuthRefreshToken :=
    { token := token
      client_id := client_id
      user_id := user_id
      scope := scope
      is_active := true
      expires_at := now + expires_delta
      revoked_at := none }
  (refresh_token, db ++ [refresh_token])

/-- `validate_and_get`: first row matching token + client that is active
and unexpired; a pure read, the table is not modified. -/
def validate_and_get (db : List OAuthRefreshToken) (now : Int)
    (token client_id : String) : Option OAuthRefreshToken :=
  db.find? (fun r =>
    r.token == token && r.client_id == client_id &&
      r.is_active == true && now < r.expires_at)

/-- `revoke`: find the row by token alone; if present flip `is_active` off
and stamp `revoked_at`, returning `True`; otherwise `False`. -/
def revoke (db : List OAuthRefreshToken) (now : Int) (token : String) :
    Bool × List OAuthRefreshToken :=
  match db with
  | [] => (false, [])
  | r :: rest =>
    if r.token == token then
      (true, { r with is_active := false, revoked_at := some now } :: rest)
    else
      let (res, rest') := revoke rest now token
      (res, r :: rest')

end OAuthRefreshTokenCRUD

/-! ## Pending-authorization / CSRF cache (csrf.py `CSRFTokenStorage`)

The Redis hash stored by `generate_token` always carries the same seven
string fields, so the cached value is embedded as a structure.  The Redis
keyspace (unique keys, `csrf:` prefix dropped) is an association list. -/

/-- The mapping stored under `csrf:<token>` by `authorize_get`:
all seven values are strings (`user_id` is `str(current_user.id)`). -/
structure CsrfData where
  client_id : String
  redirect_uri : String
  scope : String
  state : String
  code_challenge : String
  code_challenge_method : String
  user_id : String
  deriving Repr, DecidableEq

/-- The Redis keyspace restricted to `csrf:*` keys. -/
abbrev CsrfStore := List (String × CsrfData)

namespace CSRFTokenStorage

/-- `generate_token`: `hset` of the mapping under the fresh token's key
(the random token is the explicit argument), with a TTL handled natively
by Redis.  `hset` on an existing key overwrites the common fields, so an
existing entry under the same key is replaced. -/
def generate_token (store : CsrfStore) (token : String) (data : CsrfData) :
    CsrfStore :=
  match store with
  | [] => [(token, data)]
  | (k, d) :: rest =>
    if k == token then (k, data) :: rest
    else (k, d) :: generate_token rest token data

/-- `validate_and_consume`: `hgetall` the key; an absent key yields `None`
(Redis returns an empty hash) and leaves the store untouched; a hit deletes
the key (one-time use) and returns the data. -/
def validate_and_consume (store : CsrfStore) (token : String) :
    Option CsrfData × CsrfStore :=
  match store with
  | [] => (none, [])
  | (k, d) :: rest =>
    if k == token then (some d, rest)
    else
      let (res, rest') := validate_and_consume rest token
      (res, (k, d) :: rest')

end CSRFTokenStorage

/-! ## SHA-256 (FIPS 180-4), the `hashlib.sha256` primitive used by
`verify_pkce`.  Bytes are `Nat` values < 256; 32-bit words are `Nat`
values reduced mod `2^32` at every arithmetic step. -/

/-- Rotate the 32-bit word `x` right by `n` positions. -/
def rotr32 (n x : Nat) : Nat :=
  ((x >>> n) ||| (x <<< (32 - n))) % 4294967296

def shaCh (x y z : Nat) : Nat := (x &&& y) ^^^ ((x ^^^ 4294967295) &&& z)

def shaMaj (x y z : Nat) : Nat := (x &&& y) ^^^ (x &&& z) ^^^ (y &&& z)

def bigSigma0 (x : Nat) : Nat := rotr32 2 x ^^^ rotr32 13 x ^^^ rotr32 22 x

def bigSigma1 (x : Nat) : Nat := rotr32 6 x ^^^ rotr32 11 x ^^^ rotr32 25 x

def smallSigma0 (x : Nat) : Nat := rotr32 7 x ^^^ rotr32 18 x ^^^ (x >>> 3)

def smallSigma1 (x : Nat) : Nat := rotr32 17 x ^^^ rotr32 19 x ^^^ (x >>> 10)

/-- The 64 round constants of FIPS 180-4 section 4.2.2 (decimal). -/
def shaK : Array Nat := #[
  1116352408, 1899447441, 3049323471, 3921009573, 961987163,
  1508970993, 2453635748, 2870763221, 3624381080, 310598401,
  607225278, 1426881987, 1925078388, 2162078206, 2614888103,
  3248222580, 3835390401, 4022224774, 264347078, 604807628,
  770255983, 1249150122, 1555081692, 1996064986, 2554220882,
  2821834349, 2952996808, 3210313671, 3336571891, 3584528711,
  113926993, 338241895, 666307205, 773529912, 1294757372,
  1396182291, 1695183700, 1986661051, 2177026350, 2456956037,
  2730485921, 2820302411, 3259730800, 3345764771, 3516065817,
  3600352804, 4094571909, 275423344, 430227734, 506948616,
  659060556, 883997877, 958139571, 1322822218, 1537002063,
  1747873779, 1955562222, 2024104815, 2227730452, 2361852424,
  2428436474, 2756734187, 3204031479, 3329325298]

/-- The initial hash words of FIPS 180-4 section 5.3.3 (decimal). -/
def shaH0 : List Nat :=
  [1779033703, 3144134277, 1013904242, 2773480762,
   1359893119, 2600822924, 528734635, 1541459225]

/-- Big-endian 8-byte encoding of a length in bits. -/
def be64 (n : Nat) : List Nat :=
  [n >>> 56 % 256, n >>> 48 % 256, n >>> 40 % 256, n >>> 32 % 256,
   n >>> 24 % 256, n >>> 16 % 256, n >>> 8 % 256, n % 256]

/-- SHA-256 padding: append `0x80`, zeros to 56 mod 64, then the bit
length as a big-endian 64-bit integer. -/
def sha256Pad (msg : List Nat) : List Nat :=
  let padZeros := (119 - msg.length % 64) % 64
  msg ++ [0x80] ++ List.replicate padZeros 0 ++ be64 (8 * msg.length)

/-- Group a byte list into big-endian 32-bit words. -/
def bytesToWords : List Nat → List Nat
  | b0 :: b1 :: b2 :: b3 :: rest =>
    (((b0 * 256 + b1) * 256 + b2) * 256 + b3) :: bytesToWords rest
  | _ => []

/-- Split a word list into 16-word blocks (the padded message is always a
whole number of blocks; a shorter tail cannot occur). -/
def toBlocks : List Nat → List (List Nat)
  | w0 :: w1 :: w2 :: w3 :: w4 :: w5 :: w6 :: w7 ::
    w8 :: w9 :: w10 :: w11 :: w12 :: w13 :: w14 :: w15 :: rest =>
    [w0, w1, w2, w3, w4, w5, w6, w7, w8, w9, w10, w11, w12, w13, w14, w15] ::
      toBlocks rest
  | _ => []

/-- Message-schedule extension: grow the 16 block words to 64. -/
def shaExtend (w : Array Nat) : Array Nat :=
  (List.range 48).foldl (fun w _ =>
    let n := w.size
    let t := (smallSigma1 (w.get! (n - 2)) + w.get! (n - 7) +
      smallSigma0 (w.get! (n - 15)) + w.get! (n - 16)) % 4294967296
    w.push t) w

/-- One compression round. -/
def shaRound (st : Nat × Nat × Nat × Nat × Nat × Nat × Nat × Nat)
    (kw : Nat × Nat) : Nat × Nat × Nat × Nat × Nat × Nat × Nat × Nat :=
  let (a, b, c, d, e, f, g, h) := st
  let t1 := (h + bigSigma1 e + shaCh e f g + kw.1 + kw.2) % 4294967296
  let t2 := (bigSigma0 a + shaMaj a b c) % 4294967296
  ((t1 + t2) % 4294967296, a, b, c, (d + t1) % 4294967296, e, f, g)

/-- Compress one 16-word block into the running hash. -/
def shaCompress (hs : List Nat) (block : List Nat) : List Nat :=
  match hs with
  | [h0, h1, h2, h3, h4, h5, h6, h7] =>
    let w := shaExtend block.toArray
    let (a, b, c, d, e, f, g, h) :=
      (shaK.toList.zip w.toList).foldl shaRound (h0, h1, h2, h3, h4, h5, h6, h7)
    [(h0 + a) % 4294967296, (h1 + b) % 4294967296, (h2 + c) % 4294967296,
     (h3 + d) % 4294967296, (h4 + e) % 4294967296, (h5 + f) % 4294967296,
     (h6 + g) % 4294967296, (h7 + h) % 4294967296]
  | _ => hs

/-- Serialize the final state words to the 32 digest bytes. -/
def wordsToBytes (ws : List Nat) : List Nat :=
  ws.flatMap (fun w => [w >>> 24 % 256, w >>> 16 % 256, w >>> 8 % 256, w % 256])

/-- `hashlib.sha256(msg).digest()`. -/
def sha256 (msg : List Nat) : List Nat :=
  wordsToBytes ((toBlocks (bytesToWords (sha256Pad msg))).foldl shaCompress shaH0)

/-! ## base64url without padding (token.py) -/

/-- The URL-safe base64 alphabet of `base64.urlsafe_b64encode`. -/
def b64Char (n : Nat) : Char :=
  "ABCDEFGHIJKLMNOPQRSTUVWXYZabcdefghijklmnopqrstuvwxyz0123456789-_".data.getD n 'A'

/-- `base64.urlsafe_b64encode(bytes).decode("ascii").rstrip("=")`: stripping
the `=` padding of the 1- and 2-byte tails leaves 2 resp. 3 characters. -/
def base64urlNoPad : List Nat → List Char
  | [] => []
  | [a] => [b64Char (a >>> 2), b64Char ((a % 4) <<< 4)]
  | [a, b] =>
    [b64Char (a >>> 2), b64Char (((a % 4) <<< 4) ||| (b >>> 4)),
     b64Char ((b % 16) <<< 2)]
  | a :: b :: c :: rest =>
    b64Char (a >>> 2) :: b64Char (((a % 4) <<< 4) ||| (b >>> 4)) ::
      b64Char (((b % 16) <<< 2) ||| (c >>> 6)) :: b64Char (c % 64) ::
      base64urlNoPad rest

def base64urlNoPadStr (bytes : List Nat) : String :=
  String.mk (base64urlNoPad bytes)

/-- `code_verifier.encode("ascii")`: RFC 7636 verifiers are ASCII, where
the byte values are exactly the code points. -/
def asciiBytes (s : String) : List Nat :=
  s.data.map Char.toNat

/-- The S256 challenge derivation of token.py:
`base64.urlsafe_b64encode(hashlib.sha256(v.encode("ascii")).digest())`
decoded and with `=` padding stripped. -/
def computeS256Challenge (code_verifier : String) : String :=
  base64urlNoPadStr (sha256 (asciiBytes code_verifier))

/-- token.py `verify_pkce`. -/
def verify_pkce (code_verifier code_challenge code_challenge_method : String) :
    Bool :=
  if code_challenge_method == "S256" then
    computeS256Challenge code_verifier == code_challenge
  else if code_challenge_method == "plain" then
    code_verifier == code_challenge
  else
    false

/-! ## JWT issuance and verification (jwt.py)

Tokens are embedded structurally as header + payload + signature (the
base64url/JSON serialization that PyJWT inverts on decode is left
implicit).  RS256 (RSASSA-PKCS1-v1_5) is a deterministic signature
scheme: for a well-formed RSA keypair, verification against the public
key accepts exactly one signature value per signing input — the value the
matching private key produces.  The keypair is therefore abstracted as a
`Nat` identifier `key`, signing as an injective pairing of the key with
the signed content, and public-key verification as recomputation
equality. -/

/-- JOSE header as written by `create_access_token`. -/
structure JwtHeader where
  alg : String
  kid : Option String
  deriving Repr, DecidableEq

/-- The claim set built by `create_access_token` (all eight claims are
always present on issued tokens). -/
structure JwtClaims where
  sub : String
  client_id : String
  scope : String
  iss : String
  aud : String
  exp : Int
  iat : Int
  jti : String
  deriving Repr, DecidableEq

structure Jwt where
  header : JwtHeader
  payload : JwtClaims
  signature : Nat
  deriving Repr, DecidableEq

/-- Deterministic positional encoding of a string for the signature
model. -/
def encodeStrNat (s : String) : Nat :=
  s.data.foldl (fun a c => a * 1114112 + (c.toNat + 1)) 0

/-- Deterministic encoding of the signing input (the serialized header
and payload PyJWT signs). -/
def signingInput (h : JwtHeader) (p : JwtClaims) : Nat :=
  encodeStrNat (h.alg ++ "." ++ h.kid.getD "" ++ "." ++ p.sub ++ "." ++
    p.client_id ++ "." ++ p.scope ++ "." ++ p.iss ++ "." ++ p.aud ++ "." ++
    toString p.exp ++ "." ++ toString p.iat ++ "." ++ p.jti)

/-- The unique signature value the private half of `key` produces for this
signing input (RS256 is deterministic). -/
def rs256Sign (key : Nat) (h : JwtHeader) (p : JwtClaims) : Nat :=
  Nat.pair key (signingInput h p)

/-- Public-key verification: accepts exactly the signer's value. -/
def rs256Verify (key : Nat) (h : JwtHeader) (p : JwtClaims) (sig : Nat) : Bool :=
  sig == rs256Sign key h p

/-- Default of `os.getenv("OAUTH_ISSUER", "https://mindflow.example.com")`. -/
def defaultIssuer : String := "https://mindflow.example.com"

/-- The JOSE header `create_access_token` writes: RS256 with the fixed
key identifier. -/
def accessTokenHeader : JwtHeader :=
  { alg := "RS256", kid := some "mindflow-2024" }

/-- The claim set `create_access_token` builds:
`{sub, client_id, scope, iss, aud="mindflow-api", exp, iat, jti}`. -/
def accessTokenPayload (user_id : Int) (client_id scope : String)
    (now expires_delta : Int) (issuer jti : String) : JwtClaims :=
  { sub := toString user_id
    client_id := client_id
    scope := scope
    iss := issuer
    aud := "mindflow-api"
    exp := now + expires_delta
    iat := now
    jti := jti }

/-- jwt.py `create_access_token`: the payload above signed RS256.
`issuer` is the `OAUTH_ISSUER` environment value; `jti` is the random
`os.urandom(16).hex()`. -/
def create_access_token (key : Nat) (user_id : Int) (client_id scope : String)
    (now expires_delta : Int) (issuer jti : String) : Jwt :=
  { header := accessTokenHeader
    payload := accessTokenPayload user_id client_id scope now expires_delta
      issuer jti
    signature := rs256Sign key accessTokenHeader
      (accessTokenPayload user_id client_id scope now expires_delta issuer
        jti) }

/-- The typed failures PyJWT can raise for a structurally well-formed
token under the options `decode_access_token` passes.  Because the call
omits `issuer=`, PyJWT's `_validate_iss` returns immediately and
`InvalidIssuerError` is unreachable, so it has no constructor here. -/
inductive JwtError where
  | invalidAlgorithm
  | invalidSignature
  | expiredSignature
  | invalidAudience
  deriving Repr, DecidableEq

instance {ε α : Type} [DecidableEq ε] [DecidableEq α] :
    DecidableEq (Except ε α) := fun a b =>
  match a, b with
  | .error e, .error e' => decidable_of_iff (e = e') (by simp)
  | .ok x, .ok y => decidable_of_iff (x = y) (by simp)
  | .error _, .ok _ => isFalse (by simp)
  | .ok _, .error _ => isFalse (by simp)

/-- jwt.py `decode_access_token`: `jwt.decode(token, public_key,
algorithms=["RS256"], audience="mindflow-api", options={verify_exp,
verify_aud})`.  PyJWT first checks the header `alg` against the allowed
list, then the signature, then `exp` (expired iff `exp <= now`), then
`aud`; `iss` is never validated since no `issuer` argument is given. -/
def decode_access_token (key : Nat) (now : Int) (tok : Jwt) :
    Except JwtError JwtClaims :=
  if tok.header.alg ≠ "RS256" then .error .invalidAlgorithm
  else if ¬ rs256Verify key tok.header tok.payload tok.signature then
    .error .invalidSignature
  else if tok.payload.exp ≤ now then .error .expiredSignature
  else if tok.payload.aud ≠ "mindflow-api" then .error .invalidAudience
  else .ok tok.payload

/-! ## Token endpoint (token.py) -/

/-- The success body of `/oauth/token` (schemas.py `TokenResponse`); the
access token is kept structural. -/
structure TokenResponse where
  access_token : Jwt
  token_type : String
  expires_in : Int
  refresh_token : String
  scope : String
  deriving Repr, DecidableEq

/-- A FastAPI `HTTPException` as status code plus detail string. -/
structure HttpError where
  status : Nat
  detail : String
  deriving Repr, DecidableEq

/-- token.py `authenticate_client`: client must exist and be active;
`secrets.compare_digest` is constant-time string equality. -/
def authenticate_client (clients : List OAuthClient)
    (client_id client_secret : String) : Bool :=
  match OAuthClientCRUD.get_by_client_id clients client_id with
  | none => false
  | some c =>
    if ¬ c.is_active then false
    else c.client_secret == client_secret

/-- token.py `handle_authorization_code_grant`.  The result carries the
response together with the post-state of both stores: the used-flag
committed by `validate_and_use` persists even when a later PKCE check
raises. -/
def handle_authorization_code_grant (key : Nat)
    (codes : List OAuthAuthorizationCode) (refreshDb : List OAuthRefreshToken)
    (now : Int) (code redirect_uri : Option String) (client_id : String)
    (code_verifier : Option String) (issuer jti fresh_refresh_token : String) :
    Except HttpError TokenResponse ×
      List OAuthAuthorizationCode × List OAuthRefreshToken :=
  if optFalsy code then
    (.error ⟨400, "Missing required parameter: code"⟩, codes, refreshDb)
  else if optFalsy redirect_uri then
    (.error ⟨400, "Missing required parameter: redirect_uri"⟩, codes, refreshDb)
  else if optFalsy code_verifier then
    (.error ⟨400, "Missing required parameter: code_verifier (PKCE required)"⟩,
      codes, refreshDb)
  else
    let (found, codes') := OAuthAuthorizationCodeCRUD.validate_and_use codes now
      (code.getD "") client_id (redirect_uri.getD "")
    match found with
    | none =>
      (.error ⟨400, "Invalid authorization code or code expired/used"⟩,
        codes', refreshDb)
    | some auth_code =>
      if optFalsy auth_code.code_challenge ||
          optFalsy auth_code.code_challenge_method then
        (.error ⟨400, "Authorization code missing PKCE challenge"⟩,
          codes', refreshDb)
      else if ¬ verify_pkce (code_verifier.getD "")
          (auth_code.code_challenge.getD "")
          (auth_code.code_challenge_method.getD "") then
        (.error ⟨400, "PKCE verification failed: invalid code_verifier"⟩,
          codes', refreshDb)
      else
        let access_token := create_access_token key auth_code.user_id client_id
          auth_code.scope now 3600 issuer jti
        let (refresh_token_obj, refreshDb') := OAuthRefreshTokenCRUD.create
          refreshDb fresh_refresh_token client_id auth_code.user_id
          auth_code.scope now 7776000
        (.ok { access_token := access_token
               token_type := "Bearer"
               expires_in := 3600
               refresh_token := refresh_token_obj.token
               scope := auth_code.scope },
          codes', refreshDb')

/-- token.py `handle_refresh_token_grant`: a pure read of the refresh
store — the presented token is returned unchanged (no rotation) and the
store is never written. -/
def handle_refresh_token_grant (key : Nat) (refreshDb : List OAuthRefreshToken)
    (now : Int) (refresh_token : Option String) (client_id : String)
    (issuer jti : String) :
    Except HttpError TokenResponse × List OAuthRefreshToken :=
  if optFalsy refresh_token then
    (.error ⟨400, "Missing required parameter: refresh_token"⟩, refreshDb)
  else
    match OAuthRefreshTokenCRUD.validate_and_get refreshDb now
        (refresh_token.getD "") client_id with
    | none =>
      (.error ⟨400, "Invalid refresh token or token expired/revoked"⟩, refreshDb)
    | some refresh_token_obj =>
      let access_token := create_access_token key refresh_token_obj.user_id
        client_id refresh_token_obj.scope now 3600 issuer jti
      (.ok { access_token := access_token
             token_type := "Bearer"
             expires_in := 3600
             refresh_token := refresh_token.getD ""
             scope := refresh_token_obj.scope },
        refreshDb)

/-- token.py `token_endpoint`: authenticate the client (401 on failure),
then dispatch on `grant_type`; any other grant type is a 400. -/
def token_endpoint (key : Nat) (clients : List OAuthClient)
    (codes : List OAuthAuthorizationCode) (refreshDb : List OAuthRefreshToken)
    (now : Int) (grant_type : String) (code redirect_uri : Option String)
    (client_id client_secret : String)
    (code_verifier refresh_token : Option String)
    (issuer jti fresh_refresh_token : String) :
    Except HttpError TokenResponse ×
      List OAuthAuthorizationCode × List OAuthRefreshToken :=
  if ¬ authenticate_client clients client_id client_secret then
    (.error ⟨401, "Client authentication failed"⟩, codes, refreshDb)
  else if grant_type == "authorization_code" then
    handle_authorization_code_grant key codes refreshDb now code redirect_uri
      client_id code_verifier issuer jti fresh_refresh_token
  else if grant_type == "refresh_token" then
    let (res, refreshDb') := handle_refresh_token_grant key refreshDb now
      refresh_token client_id issuer jti
    (res, codes, refreshDb')
  else
    (.error ⟨400, "Unsupported grant type: " ++ grant_type⟩, codes, refreshDb)

/-! ## Authorization endpoint (authorize.py, schemas.py) -/

/-- The seven query parameters of `GET /oauth/authorize` (all present as
strings; FastAPI itself rejects an absent parameter before the handler
runs, so only provided values are modelled). -/
structure AuthorizationRequestParams where
  client_id : String
  redirect_uri : String
  response_type : String
  scope : String
  state : String
  code_challenge : String
  code_challenge_method : String
  deriving Repr, DecidableEq

/-- The pydantic model `AuthorizationRequest` (schemas.py): `min_length=1`
on `client_id`, `redirect_uri`, `scope` and `state`; `code_challenge`
constrained to 43..128 characters; `code_challenge_method` constrained by
the anchored pattern `^S256$` (pydantic-core regex, hence exact equality
with `"S256"`).  `response_type` carries no constraint. -/
def authRequestValid (r : AuthorizationRequestParams) : Bool :=
  1 ≤ r.client_id.length && 1 ≤ r.redirect_uri.length &&
  1 ≤ r.scope.length && 1 ≤ r.state.length &&
  43 ≤ r.code_challenge.length && r.code_challenge.length ≤ 128 &&
  r.code_challenge_method == "S256"

/-- The possible responses of `authorize_get`: the in-page HTML error
pages (kept by title and status code), the two 303 redirects, and the
rendered consent template (kept as its hidden-field context plus the
embedded CSRF token). -/
inductive AuthorizeGetResponse where
  | errorPage (title : String) (status : Nat)
  | redirectError (uri error error_description state : String)
  | redirectLogin
  | consent (client_name : String) (client_logo : Option String)
      (ctx : CsrfData) (csrf_token : String)
  deriving Repr, DecidableEq

/-- authorize.py `authorize_get`.  `user_id` is the session lookup of
`get_optional_user`; `fresh_csrf_token` is the random value
`CSRFTokenStorage.generate_token` draws.  Returns the response together
with the cache post-state (the database is only read). -/
def authorize_get (clients : List OAuthClient) (cache : CsrfStore)
    (r : AuthorizationRequestParams) (user_id : Option Int)
    (fresh_csrf_token : String) : AuthorizeGetResponse × CsrfStore :=
  if ¬ authRequestValid r then
    (.errorPage "Invalid Request" 400, cache)
  else if r.response_type ≠ "code" then
    (.redirectError r.redirect_uri "unsupported_response_type"
      "Only 'code' response_type is supported" r.state, cache)
  else
    match OAuthClientCRUD.get_by_client_id clients r.client_id with
    | none => (.errorPage "Invalid Client" 400, cache)
    | some client =>
      if ¬ client.is_active then (.errorPage "Invalid Client" 400, cache)
      else if ¬ OAuthClientCRUD.validate_redirect_uri clients r.client_id
          r.redirect_uri then
        (.errorPage "Invalid Redirect URI" 400, cache)
      else if ¬ OAuthClientCRUD.validate_scopes clients r.client_id r.scope then
        (.redirectError r.redirect_uri "invalid_scope"
          "One or more requested scopes are not allowed for this client"
          r.state, cache)
      else
        match user_id with
        | none => (.redirectLogin, cache)
        | some uid =>
          let data : CsrfData :=
            { client_id := r.client_id
              redirect_uri := r.redirect_uri
              scope := r.scope
              state := r.state
              code_challenge := r.code_challenge
              code_challenge_method := r.code_challenge_method
              user_id := toString uid }
          (.consent client.client_name client.logo_uri data fresh_csrf_token,
            CSRFTokenStorage.generate_token cache fresh_csrf_token data)

/-- The form fields of `POST /oauth/authorize`. -/
structure ConsentForm where
  client_id : String
  redirect_uri : String
  scope : String
  state : String
  code_challenge : String
  code_challenge_method : String
  approve : Bool
  csrf_token : String
  deriving Repr, DecidableEq

/-- The possible responses of `authorize_post`: an error redirect or the
success redirect carrying `code` and `state`. -/
inductive AuthorizePostResponse where
  | redirectError (uri error error_description state : String)
  | redirectCode (uri code state : String)
  deriving Repr, DecidableEq

/-- Python `int(s)` on an optionally signed digit string (`None` for a
malformed one).  Structurally recursive so that concrete runs reduce.
`authorize_post` only applies it to `user_id` values the consent `GET`
cached as `str(current_user.id)`, which always parse. -/
def parseNatAux : List Char → Nat → Option Nat
  | [], acc => some acc
  | c :: rest, acc =>
    if c.isDigit then parseNatAux rest (acc * 10 + (c.toNat - 48)) else none

def pyInt? (s : String) : Option Int :=
  match s.data with
  | [] => none
  | '-' :: [] => none
  | '-' :: rest => (parseNatAux rest 0).map (fun n => -(n : Int))
  | cs => (parseNatAux cs 0).map (fun n => (n : Int))

/-- The six-way comparison of cached against resubmitted fields in
`authorize_post` (true iff no field mismatches). -/
def formMatchesData (f : ConsentForm) (d : CsrfData) : Bool :=
  d.client_id == f.client_id && d.redirect_uri == f.redirect_uri &&
  d.scope == f.scope && d.state == f.state &&
  d.code_challenge == f.code_challenge &&
  d.code_challenge_method == f.code_challenge_method

/-- authorize.py `authorize_post`.  `fresh_code` is the random
`secrets.token_urlsafe(32)` of `OAuthAuthorizationCodeCRUD.create`.
Returns the response together with the cache and code-table post-states. -/
def authorize_post (cache : CsrfStore) (codes : List OAuthAuthorizationCode)
    (f : ConsentForm) (now : Int) (fresh_code : String) :
    AuthorizePostResponse × CsrfStore × List OAuthAuthorizationCode :=
  let (csrf_data, cache') := CSRFTokenStorage.validate_and_consume cache
    f.csrf_token
  match csrf_data with
  | none =>
    (.redirectError f.redirect_uri "access_denied"
      "Invalid or expired CSRF token" f.state, cache', codes)
  | some d =>
    if ¬ formMatchesData f d then
      (.redirectError f.redirect_uri "access_denied" "CSRF validation failed"
        f.state, cache', codes)
    else
      let user_id : Int := (pyInt? d.user_id).getD 0
      if ¬ f.approve then
        (.redirectError f.redirect_uri "access_denied"
          "User denied authorization" f.state, cache', codes)
      else
        let (auth_code, codes') := OAuthAuthorizationCodeCRUD.create codes
          fresh_code f.client_id user_id f.redirect_uri f.scope
          (some f.code_challenge) (some f.code_challenge_method) now
        (.redirectCode f.redirect_uri auth_code.code f.state, cache', codes')

/-! ## The authorization-endpoint state machine (for reachability
invariants): the cache and the code table as touched by `GET` and `POST`
`/oauth/authorize` alone; the client registry is read-only here. -/

structure AuthState where
  cache : CsrfStore
  codes : List OAuthAuthorizationCode

/-- One request against the authorization endpoints, carrying its
per-request inputs (session user, clock, random values). -/
inductive AuthOp where
  | get (r : AuthorizationRequestParams) (user_id : Option Int)
      (fresh_csrf_token : String)
  | post (f : ConsentForm) (now : Int) (fresh_code : String)

def authStep (clients : List OAuthClient) (s : AuthState) : AuthOp → AuthState
  | .get r u tok => { s with cache := (authorize_get clients s.cache r u tok).2 }
  | .post f now c =>
    let (_, cache', codes') := authorize_post s.cache s.codes f now c
    { cache := cache', codes := codes' }

/-- All states reachable through the authorization endpoints from the
empty cache and empty code table. -/
def authRun (clients : List OAuthClient) (ops : List AuthOp) : AuthState :=
  ops.foldl (authStep clients) ⟨[], []⟩

/-! ## Helper lemmas about the CSRF cache -/

theorem consume_some_mem (store : CsrfStore) (tok : String) (d : CsrfData)
    (h : (CSRFTokenStorage.validate_and_consume store tok).1 = some d) :
    (tok, d) ∈ store := by
  induction store with
  | nil => simp [CSRFTokenStorage.validate_and_consume] at h
  | cons e rest ih =>
    obtain ⟨k, v⟩ := e
    by_cases hk : k == tok
    · simp [CSRFTokenStorage.validate_and_consume, hk] at h
      simp_all [eq_of_beq hk]
    · simp only [CSRFTokenStorage.validate_and_consume, hk, if_neg] at h
      simp only [Bool.false_eq_true, if_false] at h
      exact List.mem_cons_of_mem _ (ih h)

theorem consume_snd_subset (store : CsrfStore) (tok : String)
    (e : String × CsrfData)
    (h : e ∈ (CSRFTokenStorage.validate_and_consume store tok).2) :
    e ∈ store := by
  induction store with
  | nil => simp [CSRFTokenStorage.validate_and_consume] at h
  | cons p rest ih =>
    obtain ⟨k, v⟩ := p
    by_cases hk : k == tok
    · simp only [CSRFTokenStorage.validate_and_consume, hk, if_pos] at h
      exact List.mem_cons_of_mem _ h
    · simp only [CSRFTokenStorage.validate_and_consume, hk,
        Bool.false_eq_true, if_false] at h
      rcases List.mem_cons.mp h with h1 | h1
      · exact h1 ▸ List.mem_cons_self _ _
      · exact List.mem_cons_of_mem _ (ih h1)

theorem consume_none_of_no_key (store : CsrfStore) (tok : String)
    (h : ∀ e ∈ store, e.1 ≠ tok) :
    (CSRFTokenStorage.validate_and_consume store tok).1 = none := by
  induction store with
  | nil => simp [CSRFTokenStorage.validate_and_consume]
  | cons p rest ih =>
    obtain ⟨k, v⟩ := p
    have hk : ¬ (k == tok) := by
      simpa using h (k, v) (List.mem_cons_self _ _)
    simp only [CSRFTokenStorage.validate_and_consume, hk,
      Bool.false_eq_true, if_false]
    exact ih fun e he => h e (List.mem_cons_of_mem _ he)

theorem consume_some_key_gone (store : CsrfStore) (tok : String) (d : CsrfData)
    (hnd : (store.map Prod.fst).Nodup)
    (h : (CSRFTokenStorage.validate_and_consume store tok).1 = some d) :
    ∀ e ∈ (CSRFTokenStorage.validate_and_consume store tok).2, e.1 ≠ tok := by
  induction store with
  | nil => simp [CSRFTokenStorage.validate_and_consume] at h
  | cons p rest ih =>
    obtain ⟨k, v⟩ := p
    simp only [List.map_cons, List.nodup_cons] at hnd
    by_cases hk : k == tok
    · simp only [CSRFTokenStorage.validate_and_consume, hk, if_pos] at h ⊢
      intro e he heq
      exact hnd.1 (by
        rw [eq_of_beq hk] at hnd ⊢
        exact heq ▸ List.mem_map_of_mem Prod.fst he)
    · simp only [CSRFTokenStorage.validate_and_consume, hk,
        Bool.false_eq_true, if_false] at h ⊢
      intro e he
      rcases List.mem_cons.mp he with h1 | h1
      · subst h1
        simpa using hk
      · exact ih hnd.2 h e h1

/-! ## Concrete fixtures used by witness statements -/

/-- RFC 7636 Appendix B code verifier. -/
def exVerifier : String := "dBjftJeZ4CVP-mB92K27uhbUJU1p1r_wW1gFWFOEjXk"

/-- RFC 7636 Appendix B S256 challenge of `exVerifier`. -/
def exChallenge : String := "E9Melhoa2OwvFrEMTJguCHaoeK1t8URWbuGJSstw-cM"

/-- A registered, active client. -/
def exClient : OAuthClient :=
  { client_id := "c1"
    client_secret := "sec1"
    client_name := "Example App"
    redirect_uris := "https://x/cb, https://x/cb2"
    allowed_scopes := "tasks:read tasks:write"
    logo_uri := none
    is_active := true }

/-- A cached pending authorization for `exClient`. -/
def exData : CsrfData :=
  { client_id := "c1"
    redirect_uri := "https://x/cb"
    scope := "tasks:read"
    state := "st"
    code_challenge := exChallenge
    code_challenge_method := "S256"
    user_id := "7" }

/-- An unused, unexpired authorization-code row bound to `exClient`. -/
def exCode : OAuthAuthorizationCode :=
  { code := "codeA"
    client_id := "c1"
    user_id := 7
    redirect_uri := "https://x/cb"
    scope := "tasks:read"
    code_challenge := some exChallenge
    code_challenge_method := some "S256"
    expires_at := 1000
    is_used := false
    used_at := none }

/-- `exCode` with no stored PKCE challenge. -/
def exCodeNoChallenge : OAuthAuthorizationCode :=
  { exCode with code_challenge := none }

/-- `exCode` after redemption at time 500. -/
def exCodeUsed : OAuthAuthorizationCode :=
  { exCode with is_used := true, used_at := some 500 }

/-- An active, unexpired refresh-token row bound to `exClient`. -/
def exRefresh : OAuthRefreshToken :=
  { token := "rtA"
    client_id := "c1"
    user_id := 7
    scope := "tasks:read"
    is_active := true
    expires_at := 100000
    revoked_at := none }

/-! ## C4 -/

/-- C4: a consumed CSRF token is gone: whenever `validate_and_consume`
succeeds, the entry has been deleted from the store (no remaining entry
carries the token), and a second `validate_and_consume` call with the
same token returns "not found". -/
theorem csrf_token_consumed_exactly_once (store : CsrfStore) (tok : String)
    (d : CsrfData) (hnd : (store.map Prod.fst).Nodup)
    (h : (CSRFTokenStorage.validate_and_consume store tok).1 = some d) :
    (∀ e ∈ (CSRFTokenStorage.validate_and_consume store tok).2, e.1 ≠ tok) ∧
    (CSRFTokenStorage.validate_and_consume
      (CSRFTokenStorage.validate_and_consume store tok).2 tok).1 = none := by
  have hgone := consume_some_key_gone store tok d hnd h
  exact ⟨hgone, consume_none_of_no_key _ tok hgone⟩

/-- Witness for C4 at a concrete one-entry store. -/
theorem csrf_token_consumed_exactly_once_witness :
    (∀ e ∈ (CSRFTokenStorage.validate_and_consume [("t1", exData)] "t1").2,
      e.1 ≠ "t1") ∧
    (CSRFTokenStorage.validate_and_consume
      (CSRFTokenStorage.validate_and_consume [("t1", exData)] "t1").2 "t1").1 =
      none :=
  csrf_token_consumed_exactly_once [("t1", exData)] "t1" exData
    (by decide) (by rfl)

/-! ## Helper lemmas about `validate_and_use` -/

open OAuthAuthorizationCodeCRUD in
theorem vau_isSome_iff_any (db : List OAuthAuthorizationCode) (now : Int)
    (c cid uri : String) :
    (validate_and_use db now c cid uri).1.isSome =
      db.any (codeMatches now c cid uri) := by
  induction db with
  | nil => simp [validate_and_use]
  | cons r rest ih =>
    by_cases hm : codeMatches now c cid uri r
    · simp [validate_and_use, hm]
    · rcases hsplit : validate_and_use rest now c cid uri with ⟨res, rest'⟩
      simp only [validate_and_use, hm, Bool.false_eq_true, if_false, hsplit,
        List.any_cons, Bool.false_or]
      rw [hsplit] at ih
      simpa using ih

open OAuthAuthorizationCodeCRUD in
theorem vau_some_spec (db : List OAuthAuthorizationCode) (now : Int)
    (c cid uri : String) (r : OAuthAuthorizationCode)
    (h : (validate_and_use db now c cid uri).1 = some r) :
    r.is_used = true ∧ r ∈ (validate_and_use db now c cid uri).2 ∧
      ∃ r₀ ∈ db, codeMatches now c cid uri r₀ = true ∧
        r = { r₀ with is_used := true, used_at := some now } := by
  induction db with
  | nil => simp [validate_and_use] at h
  | cons r₀ rest ih =>
    by_cases hm : codeMatches now c cid uri r₀
    · simp only [validate_and_use, hm, if_pos, Option.some.injEq] at h
      subst h
      exact ⟨rfl, by simp [validate_and_use, hm],
        r₀, List.mem_cons_self _ _, hm, rfl⟩
    · rcases hsplit : validate_and_use rest now c cid uri with ⟨res, rest'⟩
      simp only [validate_and_use, hm, Bool.false_eq_true, if_false,
        hsplit] at h ⊢
      rw [hsplit] at ih
      obtain ⟨h1, h2, r₁, hr₁, hm₁, he⟩ := ih h
      exact ⟨h1, List.mem_cons_of_mem _ h2, r₁,
        List.mem_cons_of_mem _ hr₁, hm₁, he⟩

open OAuthAuthorizationCodeCRUD in
theorem vau_code_match (now : Int) (c cid uri : String)
    (r : OAuthAuthorizationCode) (h : codeMatches now c cid uri r = true) :
    r.code = c ∧ r.client_id = cid ∧ r.redirect_uri = uri ∧
      r.is_used = false ∧ now < r.expires_at := by
  simp only [codeMatches, Bool.and_eq_true, beq_iff_eq, decide_eq_true_eq] at h
  tauto

open OAuthAuthorizationCodeCRUD in
theorem vau_none_of_all_dead (db : List OAuthAuthorizationCode) (now : Int)
    (c cid uri : String)
    (h : ∀ x ∈ db, x.code ≠ c ∨ x.is_used = true) :
    (validate_and_use db now c cid uri).1 = none := by
  induction db with
  | nil => simp [validate_and_use]
  | cons r rest ih =>
    have hr : ¬ codeMatches now c cid uri r := by
      intro hm
      obtain ⟨h1, _, _, h4, _⟩ := vau_code_match now c cid uri r hm
      rcases h r (List.mem_cons_self _ _) with h' | h' <;> simp_all
    rcases hsplit : validate_and_use rest now c cid uri with ⟨res, rest'⟩
    simp only [validate_and_use, hr, Bool.false_eq_true, if_false, hsplit]
    have := ih fun x hx => h x (List.mem_cons_of_mem _ hx)
    rw [hsplit] at this
    simpa using this

open OAuthAuthorizationCodeCRUD in
theorem vau_after_hit_dead (db : List OAuthAuthorizationCode) (now : Int)
    (c cid uri : String) (r : OAuthAuthorizationCode)
    (hnd : (db.map (fun x => x.code)).Nodup)
    (h : (validate_and_use db now c cid uri).1 = some r) :
    ∀ x ∈ (validate_and_use db now c cid uri).2,
      x.code ≠ c ∨ x.is_used = true := by
  induction db with
  | nil => simp [validate_and_use] at h
  | cons r₀ rest ih =>
    simp only [List.map_cons, List.nodup_cons] at hnd
    by_cases hm : codeMatches now c cid uri r₀
    · have hc₀ := (vau_code_match now c cid uri r₀ hm).1
      simp only [validate_and_use, hm, if_pos] at h ⊢
      intro x hx
      rcases List.mem_cons.mp hx with h1 | h1
      · right; rw [h1]
      · left
        intro hxc
        exact hnd.1 (hc₀ ▸ hxc ▸ List.mem_map_of_mem (fun y => y.code) h1)
    · rcases hsplit : validate_and_use rest now c cid uri with ⟨res, rest'⟩
      simp only [validate_and_use, hm, Bool.false_eq_true, if_false,
        hsplit] at h ⊢
      rw [hsplit] at ih
      have hcrest : c ∈ rest.map (fun x => x.code) := by
        obtain ⟨_, _, r₁, hr₁, hm₁, _⟩ := vau_some_spec rest now c cid uri r
          (by rw [hsplit]; exact h)
        exact (vau_code_match now c cid uri r₁ hm₁).1 ▸
          List.mem_map_of_mem (fun y => y.code) hr₁
      intro x hx
      rcases List.mem_cons.mp hx with h1 | h1
      · left
        intro hxc
        subst h1
        exact hnd.1 (by rw [hxc]; exact hcrest)
      · exact ih hnd.2 h x h1

/-! ## C2 -/

/-- C2: authorization-code redemption succeeds exactly when an unused,
unexpired row matches `code + client_id + redirect_uri`; a successful
redemption marks the row used; with unique codes a second redemption of
the same code fails; and any miss surfaces the one generic 400 detail
through `handle_authorization_code_grant`, whatever its cause. -/
theorem auth_code_redeemed_at_most_once (codes : List OAuthAuthorizationCode)
    (now : Int) (c cid uri : String) :
    ((OAuthAuthorizationCodeCRUD.validate_and_use codes now c cid uri).1.isSome
        = codes.any (OAuthAuthorizationCodeCRUD.codeMatches now c cid uri)) ∧
    (∀ r, (OAuthAuthorizationCodeCRUD.validate_and_use codes now c cid uri).1
        = some r →
      r.is_used = true ∧
      r ∈ (OAuthAuthorizationCodeCRUD.validate_and_use codes now c cid uri).2 ∧
      ∃ r₀ ∈ codes,
        OAuthAuthorizationCodeCRUD.codeMatches now c cid uri r₀ = true ∧
        r = { r₀ with is_used := true, used_at := some now }) ∧
    ((codes.map (fun x => x.code)).Nodup →
      ∀ r, (OAuthAuthorizationCodeCRUD.validate_and_use codes now c cid uri).1
          = some r →
      ∀ (now' : Int) (cid' uri' : String),
        (OAuthAuthorizationCodeCRUD.validate_and_use
          (OAuthAuthorizationCodeCRUD.validate_and_use codes now c cid uri).2
          now' c cid' uri').1 = none) ∧
    (∀ (key : Nat) (refreshDb : List OAuthRefreshToken)
        (v issuer jti fresh : String),
      c ≠ "" → uri ≠ "" → v ≠ "" →
      (OAuthAuthorizationCodeCRUD.validate_and_use codes now c cid uri).1
        = none →
      (handle_authorization_code_grant key codes refreshDb now (some c)
          (some uri) cid (some v) issuer jti fresh).1 =
        .error ⟨400, "Invalid authorization code or code expired/used"⟩) := by
  refine ⟨vau_isSome_iff_any codes now c cid uri,
    fun r h => vau_some_spec codes now c cid uri r h, ?_, ?_⟩
  · intro hnd r h now' cid' uri'
    exact vau_none_of_all_dead _ now' c cid' uri'
      (vau_after_hit_dead codes now c cid uri r hnd h)
  · intro key refreshDb v issuer jti fresh hc huri hv hmiss
    rcases hsplit : OAuthAuthorizationCodeCRUD.validate_and_use codes now c cid
      uri with ⟨res, codes₂⟩
    rw [hsplit] at hmiss
    simp only at hmiss
    subst hmiss
    simp [handle_authorization_code_grant, optFalsy, String.isEmpty_iff,
      hc, huri, hv, Option.getD, hsplit]

/-- Witness for C2: a hit on a one-row table is marked used, the second
redemption of the same code misses, and a miss yields the generic 400. -/
theorem auth_code_redeemed_at_most_once_witness :
    exCodeUsed.is_used = true ∧
    (OAuthAuthorizationCodeCRUD.validate_and_use
      (OAuthAuthorizationCodeCRUD.validate_and_use [exCode] 500 "codeA" "c1"
        "https://x/cb").2 600 "codeA" "c1" "https://x/cb").1 = none ∧
    (handle_authorization_code_grant 0 [exCode] [] 500 (some "bad")
        (some "https://x/cb") "c1" (some exVerifier) defaultIssuer "j"
        "rt").1 =
      .error ⟨400, "Invalid authorization code or code expired/used"⟩ := by
  have hhit : (OAuthAuthorizationCodeCRUD.validate_and_use [exCode] 500
      "codeA" "c1" "https://x/cb").1 = some exCodeUsed := by decide
  refine ⟨?_, ?_, ?_⟩
  · exact ((auth_code_redeemed_at_most_once [exCode] 500 "codeA" "c1"
      "https://x/cb").2.1 exCodeUsed hhit).1
  · exact (auth_code_redeemed_at_most_once [exCode] 500 "codeA" "c1"
      "https://x/cb").2.2.1 (by decide) exCodeUsed hhit 600 "c1" "https://x/cb"
  · exact (auth_code_redeemed_at_most_once [exCode] 500 "bad" "c1"
      "https://x/cb").2.2.2 0 [] exVerifier defaultIssuer "j" "rt"
      (by decide) (by decide) (by decide) (by decide)

/-! ## Helper lemmas about the refresh-token store -/

open OAuthRefreshTokenCRUD in
theorem validate_and_get_spec (db : List OAuthRefreshToken) (now : Int)
    (tok cid : String) (r : OAuthRefreshToken)
    (h : validate_and_get db now tok cid = some r) :
    r ∈ db ∧ r.token = tok ∧ r.client_id = cid ∧ r.is_active = true ∧
      now < r.expires_at := by
  have hmem := List.mem_of_find?_eq_some h
  have hp := List.find?_some h
  simp only [Bool.and_eq_true, beq_iff_eq, decide_eq_true_eq] at hp
  tauto

open OAuthRefreshTokenCRUD in
theorem revoke_inactive (db : List OAuthRefreshToken) (now : Int)
    (tok : String) (hnd : (db.map (fun x => x.token)).Nodup) :
    ∀ x ∈ (revoke db now tok).2, x.token = tok → x.is_active = false := by
  induction db with
  | nil => simp [revoke]
  | cons r rest ih =>
    simp only [List.map_cons, List.nodup_cons] at hnd
    by_cases hr : r.token == tok
    · simp only [revoke, hr, if_pos]
      intro x hx hxt
      rcases List.mem_cons.mp hx with h1 | h1
      · rw [h1]
      · exact absurd (hxt ▸ List.mem_map_of_mem (fun y => y.token) h1)
          (eq_of_beq hr ▸ hnd.1)
    · rcases hsplit : revoke rest now tok with ⟨res, rest'⟩
      simp only [revoke, hr, Bool.false_eq_true, if_false, hsplit]
      intro x hx hxt
      rcases List.mem_cons.mp hx with h1 | h1
      · subst h1
        exact absurd (by simp [hxt]) hr
      · have := ih hnd.2
        rw [hsplit] at this
        exact this x h1 hxt

open OAuthRefreshTokenCRUD in
theorem validate_and_get_none (db : List OAuthRefreshToken) (now : Int)
    (tok cid : String)
    (h : ∀ x ∈ db, x.token = tok → x.is_active = false) :
    validate_and_get db now tok cid = none := by
  rw [validate_and_get, List.find?_eq_none]
  intro x hx
  simp only [Bool.and_eq_true, beq_iff_eq, decide_eq_true_eq, not_and]
  intro hxt _
  obtain ⟨⟨ht, _⟩, hact⟩ := hxt
  rw [h x hx ht] at hact
  cases hact

/-! ## C5 -/

/-- C5: a successful refresh-token exchange returns the very token that
was presented (no rotation), leaves the refresh store untouched, and
mints a fresh access token for the stored user and scope of the presented
token's row (whose client is the authenticated client); once `revoke` has
run on a token, every subsequent exchange presenting it fails with the
generic 400 invalid-refresh-token error, again without touching the
store. -/
theorem refresh_exchange_no_rotation_and_revocation :
    (∀ (key : Nat) (db : List OAuthRefreshToken) (now : Int)
        (tok cid issuer jti : String) (r : OAuthRefreshToken),
      OAuthRefreshTokenCRUD.validate_and_get db now tok cid = some r →
      tok ≠ "" →
      r.client_id = cid ∧
      handle_refresh_token_grant key db now (some tok) cid issuer jti =
        (.ok { access_token :=
                 create_access_token key r.user_id cid r.scope now 3600
                   issuer jti
               token_type := "Bearer"
               expires_in := 3600
               refresh_token := tok
               scope := r.scope }, db)) ∧
    (∀ (key : Nat) (db : List OAuthRefreshToken) (nowR now' : Int)
        (tok cid' issuer jti : String),
      (db.map (fun x => x.token)).Nodup →
      tok ≠ "" →
      handle_refresh_token_grant key
          (OAuthRefreshTokenCRUD.revoke db nowR tok).2 now' (some tok) cid'
          issuer jti =
        (.error ⟨400, "Invalid refresh token or token expired/revoked"⟩,
          (OAuthRefreshTokenCRUD.revoke db nowR tok).2)) := by
  constructor
  · intro key db now tok cid issuer jti r hget htok
    refine ⟨(validate_and_get_spec db now tok cid r hget).2.2.1, ?_⟩
    simp [handle_refresh_token_grant, optFalsy, String.isEmpty_iff, htok, hget]
  · intro key db nowR now' tok cid' issuer jti hnd htok
    have hnone : OAuthRefreshTokenCRUD.validate_and_get
        (OAuthRefreshTokenCRUD.revoke db nowR tok).2 now' tok cid' = none :=
      validate_and_get_none _ now' tok cid' (revoke_inactive db nowR tok hnd)
    simp [handle_refresh_token_grant, optFalsy, String.isEmpty_iff, htok,
      hnone]

/-- Witness for C5: a concrete exchange returns the presented token and
the unchanged store; after revocation the same exchange yields the
generic 400. -/
theorem refresh_exchange_no_rotation_and_revocation_witness :
    (exRefresh.client_id = "c1" ∧
     handle_refresh_token_grant 0 [exRefresh] 50 (some "rtA") "c1"
         defaultIssuer "j" =
       (.ok { access_token :=
                create_access_token 0 exRefresh.user_id "c1" exRefresh.scope
                  50 3600 defaultIssuer "j"
              token_type := "Bearer"
              expires_in := 3600
              refresh_token := "rtA"
              scope := exRefresh.scope }, [exRefresh])) ∧
    handle_refresh_token_grant 0
        (OAuthRefreshTokenCRUD.revoke [exRefresh] 60 "rtA").2 70 (some "rtA")
        "c1" defaultIssuer "j" =
      (.error ⟨400, "Invalid refresh token or token expired/revoked"⟩,
        (OAuthRefreshTokenCRUD.revoke [exRefresh] 60 "rtA").2) :=
  ⟨refresh_exchange_no_rotation_and_revocation.1 0 [exRefresh] 50 "rtA" "c1"
      defaultIssuer "j" exRefresh (by decide) (by decide),
   refresh_exchange_no_rotation_and_revocation.2 0 [exRefresh] 60 70 "rtA"
      "c1" defaultIssuer "j" (by decide) (by decide)⟩

/-! ## C1 -/

/-- A claim set whose `iss` is not the configured issuer. -/
def exBadIssClaims : JwtClaims :=
  { sub := "7", client_id := "c1", scope := "tasks:read",
    iss := "https://attacker.example.com", aud := "mindflow-api",
    exp := 1000, iat := 0, jti := "jid" }

/-- A correctly signed token carrying `exBadIssClaims`. -/
def exBadIssToken : Jwt :=
  { header := accessTokenHeader, payload := exBadIssClaims,
    signature := rs256Sign 0 accessTokenHeader exBadIssClaims }

/-- A claim set whose `aud` is not `"mindflow-api"`. -/
def exBadAudClaims : JwtClaims :=
  { sub := "7", client_id := "c1", scope := "tasks:read",
    iss := defaultIssuer, aud := "wrong-audience",
    exp := 1000, iat := 0, jti := "jid" }

/-- A correctly signed token carrying `exBadAudClaims`. -/
def exBadAudToken : Jwt :=
  { header := accessTokenHeader, payload := exBadAudClaims,
    signature := rs256Sign 0 accessTokenHeader exBadAudClaims }

/-- Determinism of RS256: the signer's value always verifies. -/
theorem rs256Verify_sign (key : Nat) (h : JwtHeader) (p : JwtClaims) :
    rs256Verify key h p (rs256Sign key h p) = true := by
  simp [rs256Verify]

set_option maxRecDepth 16384 in
/-- C1 counterexample: `decode_access_token` accepts a well-signed,
unexpired token whose `iss` claim differs from the configured issuer —
`jwt.decode` is called without `issuer=`, so PyJWT never validates `iss`
and `InvalidIssuerError` is unreachable.  This refutes the claim that
verification succeeds only when the issuer claim matches the configured
value. -/
theorem decode_accepts_wrong_issuer :
    decode_access_token 0 10 exBadIssToken = .ok exBadIssClaims ∧
    exBadIssToken.payload.iss ≠ defaultIssuer := by
  constructor <;> decide

/-- Helper: the three components of an issued token. -/
theorem create_access_token_parts (key : Nat) (uid : Int) (cid scope : String)
    (iat Δ : Int) (issuer jti : String) :
    (create_access_token key uid cid scope iat Δ issuer jti).header =
      accessTokenHeader ∧
    (create_access_token key uid cid scope iat Δ issuer jti).payload =
      accessTokenPayload uid cid scope iat Δ issuer jti ∧
    (create_access_token key uid cid scope iat Δ issuer jti).signature =
      rs256Sign key accessTokenHeader
        (accessTokenPayload uid cid scope iat Δ issuer jti) := by
  refine ⟨rfl, rfl, ?_⟩
  unfold create_access_token
  with_reducible rfl

/-- Helper: success characterization of `decode_access_token`. -/
theorem decode_ok_iff (key : Nat) (now : Int) (tok : Jwt) :
    decode_access_token key now tok = .ok tok.payload ↔
      tok.header.alg = "RS256" ∧
      rs256Verify key tok.header tok.payload tok.signature = true ∧
      now < tok.payload.exp ∧ tok.payload.aud = "mindflow-api" := by
  simp only [decode_access_token]
  split_ifs with h1 h2 h3 h4 <;> simp_all

/-- Helper: a failing signature check yields `InvalidSignatureError`. -/
theorem decode_err_sig (key : Nat) (now : Int) (tok : Jwt)
    (h1 : tok.header.alg = "RS256")
    (h2 : rs256Verify key tok.header tok.payload tok.signature = false) :
    decode_access_token key now tok = .error .invalidSignature := by
  simp [decode_access_token, h1, h2]

/-- Helper: a stale `exp` yields `ExpiredSignatureError`. -/
theorem decode_err_exp (key : Nat) (now : Int) (tok : Jwt)
    (h1 : tok.header.alg = "RS256")
    (h2 : rs256Verify key tok.header tok.payload tok.signature = true)
    (h3 : tok.payload.exp ≤ now) :
    decode_access_token key now tok = .error .expiredSignature := by
  simp [decode_access_token, h1, h2, h3]

/-- Helper: an audience mismatch yields `InvalidAudienceError`. -/
theorem decode_err_aud (key : Nat) (now : Int) (tok : Jwt)
    (h1 : tok.header.alg = "RS256")
    (h2 : rs256Verify key tok.header tok.payload tok.signature = true)
    (h3 : now < tok.payload.exp) (h4 : tok.payload.aud ≠ "mindflow-api") :
    decode_access_token key now tok = .error .invalidAudience := by
  simp [decode_access_token, h1, h2, h4, not_le.mpr h3]

/-- C1 (amended): `decode_access_token` succeeds iff the signature
verifies under the current key and `exp` is in the future and `aud` is
the configured audience — the issuer claim is not checked; signature
failure, expiry, and audience mismatch surface as distinct typed errors;
a token issued by `create_access_token` verifies iff it is unexpired; and
any alteration of an issued token's signature yields
`InvalidSignatureError`. -/
theorem access_token_verification (key : Nat) (now : Int) (tok : Jwt) :
    (decode_access_token key now tok = .ok tok.payload ↔
      tok.header.alg = "RS256" ∧
      rs256Verify key tok.header tok.payload tok.signature = true ∧
      now < tok.payload.exp ∧ tok.payload.aud = "mindflow-api") ∧
    (tok.header.alg = "RS256" →
      rs256Verify key tok.header tok.payload tok.signature = false →
      decode_access_token key now tok = .error .invalidSignature) ∧
    (tok.header.alg = "RS256" →
      rs256Verify key tok.header tok.payload tok.signature = true →
      tok.payload.exp ≤ now →
      decode_access_token key now tok = .error .expiredSignature) ∧
    (tok.header.alg = "RS256" →
      rs256Verify key tok.header tok.payload tok.signature = true →
      now < tok.payload.exp → tok.payload.aud ≠ "mindflow-api" →
      decode_access_token key now tok = .error .invalidAudience) ∧
    (∀ (uid : Int) (cid scope : String) (iat Δ : Int) (issuer jti : String),
      decode_access_token key now
          (create_access_token key uid cid scope iat Δ issuer jti) =
        if iat + Δ ≤ now then .error .expiredSignature
        else .ok (create_access_token key uid cid scope iat Δ issuer jti).payload) ∧
    (∀ (uid : Int) (cid scope : String) (iat Δ : Int) (issuer jti : String)
        (sig' : Nat),
      sig' ≠ (create_access_token key uid cid scope iat Δ issuer jti).signature →
      decode_access_token key now
          { create_access_token key uid cid scope iat Δ issuer jti with
            signature := sig' } = .error .invalidSignature) := by
  refine ⟨decode_ok_iff key now tok,
    decode_err_sig key now tok,
    decode_err_exp key now tok,
    decode_err_aud key now tok, ?_, ?_⟩
  · intro uid cid scope iat Δ issuer jti
    obtain ⟨hh, hp, hs⟩ :=
      create_access_token_parts key uid cid scope iat Δ issuer jti
    have hv := rs256Verify_sign key accessTokenHeader
      (accessTokenPayload uid cid scope iat Δ issuer jti)
    by_cases hexp : iat + Δ ≤ now
    · rw [if_pos hexp]
      refine decode_err_exp key now _ (by rw [hh]; rfl) ?_ (by rw [hp]; exact hexp)
      rw [hh, hp, hs]; exact hv
    · rw [if_neg hexp]
      refine (decode_ok_iff key now _).mpr
        ⟨by rw [hh]; rfl, ?_, by rw [hp]; exact not_le.mp hexp, by rw [hp]; rfl⟩
      rw [hh, hp, hs]; exact hv
  · intro uid cid scope iat Δ issuer jti sig' hne
    obtain ⟨hh, hp, hs⟩ :=
      create_access_token_parts key uid cid scope iat Δ issuer jti
    rw [hs] at hne
    refine decode_err_sig key now _ (by rw [hh]; rfl) ?_
    show (sig' == rs256Sign key accessTokenHeader
      (accessTokenPayload uid cid scope iat Δ issuer jti)) = false
    exact beq_eq_false_iff_ne.mpr hne

set_option maxRecDepth 16384 in
set_option maxHeartbeats 1000000 in
/-- Witness for C1 at concrete tokens: each typed failure is observed,
an issued token decodes, and a tampered signature is rejected. -/
theorem access_token_verification_witness :
    decode_access_token 0 10 { exBadIssToken with signature := 0 } =
      .error .invalidSignature ∧
    decode_access_token 0 2000 exBadIssToken = .error .expiredSignature ∧
    decode_access_token 0 10 exBadAudToken = .error .invalidAudience ∧
    decode_access_token 0 10
        (create_access_token 0 7 "c1" "tasks:read" 0 3600 defaultIssuer "j") =
      .ok (create_access_token 0 7 "c1" "tasks:read" 0 3600 defaultIssuer
        "j").payload ∧
    decode_access_token 0 10
        { create_access_token 0 7 "c1" "tasks:read" 0 3600 defaultIssuer "j"
          with signature := 0 } = .error .invalidSignature := by
  refine ⟨?_, ?_, ?_, ?_, ?_⟩
  · exact (access_token_verification 0 10
      { exBadIssToken with signature := 0 }).2.1 (by decide) (by decide)
  · exact (access_token_verification 0 2000 exBadIssToken).2.2.1
      (by decide) (by decide) (by decide)
  · exact (access_token_verification 0 10 exBadAudToken).2.2.2.1
      (by decide) (by decide) (by decide) (by decide)
  · have h := (access_token_verification 0 10 exBadIssToken).2.2.2.2.1
      7 "c1" "tasks:read" 0 3600 defaultIssuer "j"
    simpa using h
  · exact (access_token_verification 0 10 exBadIssToken).2.2.2.2.2
      7 "c1" "tasks:read" 0 3600 defaultIssuer "j" 0 (by decide)

/-! ## C3 -/

/-- Helper: a non-empty provided string is not falsy. -/
theorem optFalsy_some_false (s : String) (h : s ≠ "") :
    optFalsy (some s) = false := by
  show s.isEmpty = false
  cases hEq : s.isEmpty
  · rfl
  · exact absurd ((String.isEmpty_iff s).mp hEq) h

/-- C3: PKCE verification succeeds for method `S256` iff the unpadded
base64url encoding of `SHA256(code_verifier)` equals the stored
challenge (checked on the RFC 7636 test vector), for `plain` iff the
verifier equals the challenge, and fails closed for every other method;
at the token endpoint a stored code without a challenge, and a verifier
failing the check, each yield a 400. -/
theorem pkce_verification :
    (∀ v ch, verify_pkce v ch "S256" = true ↔
      base64urlNoPadStr (sha256 (asciiBytes v)) = ch) ∧
    (∀ v ch, verify_pkce v ch "plain" = true ↔ v = ch) ∧
    (∀ v ch m, m ≠ "S256" → m ≠ "plain" → verify_pkce v ch m = false) ∧
    verify_pkce exVerifier exChallenge "S256" = true ∧
    (∀ (key : Nat) (codes : List OAuthAuthorizationCode)
        (refreshDb : List OAuthRefreshToken) (now : Int)
        (c uri cid v issuer jti fresh : String) (r : OAuthAuthorizationCode),
      c ≠ "" → uri ≠ "" → v ≠ "" →
      (OAuthAuthorizationCodeCRUD.validate_and_use codes now c cid uri).1 =
        some r →
      (optFalsy r.code_challenge || optFalsy r.code_challenge_method) = true →
      (handle_authorization_code_grant key codes refreshDb now (some c)
          (some uri) cid (some v) issuer jti fresh).1 =
        .error ⟨400, "Authorization code missing PKCE challenge"⟩) ∧
    (∀ (key : Nat) (codes : List OAuthAuthorizationCode)
        (refreshDb : List OAuthRefreshToken) (now : Int)
        (c uri cid v issuer jti fresh : String) (r : OAuthAuthorizationCode),
      c ≠ "" → uri ≠ "" → v ≠ "" →
      (OAuthAuthorizationCodeCRUD.validate_and_use codes now c cid uri).1 =
        some r →
      (optFalsy r.code_challenge || optFalsy r.code_challenge_method) = false →
      verify_pkce v (r.code_challenge.getD "") (r.code_challenge_method.getD "")
        = false →
      (handle_authorization_code_grant key codes refreshDb now (some c)
          (some uri) cid (some v) issuer jti fresh).1 =
        .error ⟨400, "PKCE verification failed: invalid code_verifier"⟩) := by
  refine ⟨?_, ?_, ?_, ?_, ?_, ?_⟩
  · intro v ch
    simp [verify_pkce, computeS256Challenge]
  · intro v ch
    simp [verify_pkce]
  · intro v ch m h1 h2
    simp [verify_pkce, beq_eq_false_iff_ne.mpr h1, beq_eq_false_iff_ne.mpr h2]
  · decide
  · intro key codes refreshDb now c uri cid v issuer jti fresh r hc huri hv
      hhit hfalsy
    rcases hsplit : OAuthAuthorizationCodeCRUD.validate_and_use codes now c cid
      uri with ⟨res, codes₂⟩
    rw [hsplit] at hhit
    simp only at hhit
    subst hhit
    have hc' : optFalsy (some c) = false := optFalsy_some_false c hc
    have huri' : optFalsy (some uri) = false := optFalsy_some_false uri huri
    have hv' : optFalsy (some v) = false := optFalsy_some_false v hv
    simp only [handle_authorization_code_grant, hc', huri', hv',
      Bool.false_eq_true, if_false, hsplit, Option.getD_some]
    rw [if_pos hfalsy]
  · intro key codes refreshDb now c uri cid v issuer jti fresh r hc huri hv
      hhit hpres hfail
    rcases hsplit : OAuthAuthorizationCodeCRUD.validate_and_use codes now c cid
      uri with ⟨res, codes₂⟩
    rw [hsplit] at hhit
    simp only at hhit
    subst hhit
    have hc' : optFalsy (some c) = false := optFalsy_some_false c hc
    have huri' : optFalsy (some uri) = false := optFalsy_some_false uri huri
    have hv' : optFalsy (some v) = false := optFalsy_some_false v hv
    simp only [handle_authorization_code_grant, hc', huri', hv',
      Bool.false_eq_true, if_false, hsplit, Option.getD_some]
    rw [if_neg (by simp [hpres]), if_pos (by simp [hfail])]

/-- Witness for C3: the RFC vector verifies, a wrong method fails, a
challenge-free stored code is rejected, and a wrong verifier is
rejected. -/
theorem pkce_verification_witness :
    verify_pkce "abc" "abc" "plain" = true ∧
    verify_pkce "abc" "def" "foo" = false ∧
    (handle_authorization_code_grant 0 [exCodeNoChallenge] [] 500
        (some "codeA") (some "https://x/cb") "c1" (some exVerifier)
        defaultIssuer "j" "rt").1 =
      .error ⟨400, "Authorization code missing PKCE challenge"⟩ ∧
    (handle_authorization_code_grant 0 [exCode] [] 500 (some "codeA")
        (some "https://x/cb") "c1" (some "wrong") defaultIssuer "j" "rt").1 =
      .error ⟨400, "PKCE verification failed: invalid code_verifier"⟩ := by
  refine ⟨(pkce_verification.2.1 "abc" "abc").mpr rfl,
    pkce_verification.2.2.1 "abc" "def" "foo" (by decide) (by decide),
    ?_, ?_⟩
  · exact pkce_verification.2.2.2.2.1 0 [exCodeNoChallenge] [] 500 "codeA"
      "https://x/cb" "c1" exVerifier defaultIssuer "j" "rt"
      { exCodeNoChallenge with is_used := true, used_at := some 500 }
      (by decide) (by decide) (by decide) (by decide) (by decide)
  · exact pkce_verification.2.2.2.2.2 0 [exCode] [] 500 "codeA"
      "https://x/cb" "c1" "wrong" defaultIssuer "j" "rt" exCodeUsed
      (by decide) (by decide) (by decide) (by decide) (by decide) (by decide)

/-! ## C6 -/

/-- The two channels an `authorize_get` failure can use: an in-page HTML
error (with its status code) or a 303 redirect to the client's
`redirect_uri` carrying an `error` parameter. -/
inductive ErrorChannel where
  | inPage (status : Nat)
  | redirected (error : String)
  deriving Repr, DecidableEq

/-- Classify an `authorize_get` response by failure channel (`none` for
the non-failure outcomes: login redirect and consent page). -/
def getFailureChannel : AuthorizeGetResponse → Option ErrorChannel
  | .errorPage _ s => some (.inPage s)
  | .redirectError _ e _ _ => some (.redirected e)
  | .redirectLogin => none
  | .consent _ _ _ _ => none

/-- A client that exists and is active. -/
def clientKnownActive (clients : List OAuthClient) (cid : String) : Bool :=
  match OAuthClientCRUD.get_by_client_id clients cid with
  | none => false
  | some c => c.is_active

/-- Modelled from the claim's wording (spec §4.2 validation order):
malformed or missing parameters give an in-page 400; otherwise a
`response_type` other than `code` redirects with
`unsupported_response_type`; otherwise an unknown or inactive client, or
an unregistered `redirect_uri`, gives an in-page 400 (never a redirect);
otherwise a scope outside the client's allowed set redirects with
`invalid_scope`. -/
def authorize_get_error_spec (clients : List OAuthClient)
    (r : AuthorizationRequestParams) : Option ErrorChannel :=
  if ¬ authRequestValid r then some (.inPage 400)
  else if r.response_type ≠ "code" then
    some (.redirected "unsupported_response_type")
  else if ¬ clientKnownActive clients r.client_id then some (.inPage 400)
  else if ¬ OAuthClientCRUD.validate_redirect_uri clients r.client_id
      r.redirect_uri then
    some (.inPage 400)
  else if ¬ OAuthClientCRUD.validate_scopes clients r.client_id r.scope then
    some (.redirected "invalid_scope")
  else none

/-- C6: the failure channel of every `GET /oauth/authorize` request is
exactly the one the spec's ordered validation prescribes. -/
theorem authorize_get_error_channels (clients : List OAuthClient)
    (cache : CsrfStore) (r : AuthorizationRequestParams)
    (user_id : Option Int) (tok : String) :
    getFailureChannel (authorize_get clients cache r user_id tok).1 =
      authorize_get_error_spec clients r := by
  by_cases h1 : authRequestValid r
  · by_cases h2 : r.response_type = "code"
    · cases hc : OAuthClientCRUD.get_by_client_id clients r.client_id with
      | none =>
        simp [authorize_get, authorize_get_error_spec, getFailureChannel,
          clientKnownActive, h1, h2, hc]
      | some client =>
        by_cases hact : client.is_active
        · by_cases hru : OAuthClientCRUD.validate_redirect_uri clients
            r.client_id r.redirect_uri
          · by_cases hsc : OAuthClientCRUD.validate_scopes clients r.client_id
              r.scope
            · cases user_id <;>
                simp [authorize_get, authorize_get_error_spec,
                  getFailureChannel, clientKnownActive, h1, h2, hc, hact,
                  hru, hsc]
            · simp [authorize_get, authorize_get_error_spec,
                getFailureChannel, clientKnownActive, h1, h2, hc, hact, hru,
                hsc]
          · simp [authorize_get, authorize_get_error_spec, getFailureChannel,
              clientKnownActive, h1, h2, hc, hact, hru]
        · simp [authorize_get, authorize_get_error_spec, getFailureChannel,
            clientKnownActive, h1, h2, hc, hact]
    · simp [authorize_get, authorize_get_error_spec, getFailureChannel, h1,
        h2]
  · simp [authorize_get, authorize_get_error_spec, getFailureChannel, h1]

/-! ## C7 -/

/-- Helper: what a successful six-field comparison means. -/
theorem formMatchesData_spec (f : ConsentForm) (d : CsrfData)
    (h : formMatchesData f d = true) :
    d.client_id = f.client_id ∧ d.redirect_uri = f.redirect_uri ∧
    d.scope = f.scope ∧ d.state = f.state ∧
    d.code_challenge = f.code_challenge ∧
    d.code_challenge_method = f.code_challenge_method := by
  simp only [formMatchesData, Bool.and_eq_true, beq_iff_eq] at h
  tauto

/-- A consent form consistent with the cached entry `exData`. -/
def exForm : ConsentForm :=
  { client_id := "c1"
    redirect_uri := "https://x/cb"
    scope := "tasks:read"
    state := "st"
    code_challenge := exChallenge
    code_challenge_method := "S256"
    approve := true
    csrf_token := "t1" }

/-- C7: on `POST /oauth/authorize`, when the CSRF token resolves to a
cached entry: if every resubmitted field equals the cached value and the
user approved, an authorization code bound to the cached user id, client,
redirect URI, scope and PKCE challenge is appended with a 10-minute
expiry and the response redirects with `code` and the original `state`;
a field mismatch, a CSRF miss, and a denial each redirect with
`error=access_denied`. -/
theorem authorize_post_consent_outcomes :
    (∀ (cache : CsrfStore) (codes : List OAuthAuthorizationCode)
        (f : ConsentForm) (now : Int) (fresh : String) (cache₂ : CsrfStore),
      CSRFTokenStorage.validate_and_consume cache f.csrf_token =
        (none, cache₂) →
      authorize_post cache codes f now fresh =
        (.redirectError f.redirect_uri "access_denied"
          "Invalid or expired CSRF token" f.state, cache₂, codes)) ∧
    (∀ (cache : CsrfStore) (codes : List OAuthAuthorizationCode)
        (f : ConsentForm) (now : Int) (fresh : String) (d : CsrfData)
        (cache₂ : CsrfStore),
      CSRFTokenStorage.validate_and_consume cache f.csrf_token =
        (some d, cache₂) →
      (formMatchesData f d = true → f.approve = true →
        authorize_post cache codes f now fresh =
          (.redirectCode d.redirect_uri fresh d.state, cache₂,
            codes ++ [{ code := fresh
                        client_id := d.client_id
                        user_id := (pyInt? d.user_id).getD 0
                        redirect_uri := d.redirect_uri
                        scope := d.scope
                        code_challenge := some d.code_challenge
                        code_challenge_method := some d.code_challenge_method
                        expires_at := now + 600
                        is_used := false
                        used_at := none }])) ∧
      (formMatchesData f d = false →
        authorize_post cache codes f now fresh =
          (.redirectError f.redirect_uri "access_denied"
            "CSRF validation failed" f.state, cache₂, codes)) ∧
      (formMatchesData f d = true → f.approve = false →
        authorize_post cache codes f now fresh =
          (.redirectError f.redirect_uri "access_denied"
            "User denied authorization" f.state, cache₂, codes))) := by
  constructor
  · intro cache codes f now fresh cache₂ hcons
    simp [authorize_post, hcons]
  · intro cache codes f now fresh d cache₂ hcons
    refine ⟨?_, ?_, ?_⟩
    · intro hm ha
      obtain ⟨e1, e2, e3, e4, e5, e6⟩ := formMatchesData_spec f d hm
      simp [authorize_post, hcons, hm, ha,
        OAuthAuthorizationCodeCRUD.create, e1, e2, e3, e4, e5, e6]
    · intro hm
      simp [authorize_post, hcons, hm]
    · intro hm ha
      simp [authorize_post, hcons, hm, ha]

/-- Witness for C7: a matching approved form issues the code bound to
the cached values; a miss, a mismatched scope, and a denial each redirect
with `access_denied`. -/
theorem authorize_post_consent_outcomes_witness :
    authorize_post [] [] exForm 100 "codeX" =
      (.redirectError "https://x/cb" "access_denied"
        "Invalid or expired CSRF token" "st", [], []) ∧
    authorize_post [("t1", exData)] [] exForm 100 "codeX" =
      (.redirectCode "https://x/cb" "codeX" "st", [],
        [{ code := "codeX", client_id := "c1", user_id := 7,
           redirect_uri := "https://x/cb", scope := "tasks:read",
           code_challenge := some exChallenge,
           code_challenge_method := some "S256", expires_at := 700,
           is_used := false, used_at := none }]) ∧
    authorize_post [("t1", exData)] []
        { exForm with scope := "tasks:write" } 100 "codeX" =
      (.redirectError "https://x/cb" "access_denied" "CSRF validation failed"
        "st", [], []) ∧
    authorize_post [("t1", exData)] [] { exForm with approve := false } 100
        "codeX" =
      (.redirectError "https://x/cb" "access_denied"
        "User denied authorization" "st", [], []) := by
  refine ⟨?_, ?_, ?_, ?_⟩
  · exact authorize_post_consent_outcomes.1 [] [] exForm 100 "codeX" []
      (by decide)
  · have h := (authorize_post_consent_outcomes.2 [("t1", exData)] [] exForm
      100 "codeX" exData [] (by decide)).1 (by decide) (by decide)
    have h7 : (pyInt? "7").getD 0 = (7 : Int) := by decide
    simpa [exData, h7] using h
  · exact (authorize_post_consent_outcomes.2 [("t1", exData)] []
      { exForm with scope := "tasks:write" } 100 "codeX" exData []
      (by decide)).2.1 (by decide)
  · exact (authorize_post_consent_outcomes.2 [("t1", exData)] []
      { exForm with approve := false } 100 "codeX" exData []
      (by decide)).2.2 (by decide) (by decide)

/-! ## C9 -/

/-- C9: when the CSRF token of a `POST /oauth/authorize` hits a cached
entry, the entry is deleted before the field comparison, so the cache
post-state is the consumed one in every branch — also when the request is
then rejected for a mismatch or a denial, in which case the code table is
untouched; and (with unique cache keys) a repeated POST presenting the
same token fails the CSRF lookup. -/
theorem csrf_consumed_before_comparison (cache : CsrfStore)
    (codes : List OAuthAuthorizationCode) (f : ConsentForm) (now : Int)
    (fresh : String) (d : CsrfData) (cache₂ : CsrfStore)
    (hcons : CSRFTokenStorage.validate_and_consume cache f.csrf_token =
      (some d, cache₂)) :
    ((authorize_post cache codes f now fresh).2.1 = cache₂) ∧
    (formMatchesData f d = false →
      authorize_post cache codes f now fresh =
        (.redirectError f.redirect_uri "access_denied"
          "CSRF validation failed" f.state, cache₂, codes)) ∧
    (formMatchesData f d = true → f.approve = false →
      authorize_post cache codes f now fresh =
        (.redirectError f.redirect_uri "access_denied"
          "User denied authorization" f.state, cache₂, codes)) ∧
    ((cache.map Prod.fst).Nodup →
      ∀ (codes' : List OAuthAuthorizationCode) (f' : ConsentForm)
        (now' : Int) (fresh' : String),
      f'.csrf_token = f.csrf_token →
      (authorize_post cache₂ codes' f' now' fresh').1 =
        .redirectError f'.redirect_uri "access_denied"
          "Invalid or expired CSRF token" f'.state) := by
  refine ⟨?_, ?_, ?_, ?_⟩
  · by_cases hm : formMatchesData f d
    · by_cases ha : f.approve <;>
        simp [authorize_post, hcons, hm, ha,
          OAuthAuthorizationCodeCRUD.create]
    · simp [authorize_post, hcons, hm]
  · intro hm
    simp [authorize_post, hcons, hm]
  · intro hm ha
    simp [authorize_post, hcons, hm, ha]
  · intro hnd codes' f' now' fresh' htok
    have hc1 : (CSRFTokenStorage.validate_and_consume cache f.csrf_token).1 =
        some d := by rw [hcons]
    have hc2 : (CSRFTokenStorage.validate_and_consume cache f.csrf_token).2 =
        cache₂ := by rw [hcons]
    have hgone := consume_some_key_gone cache f.csrf_token d hnd hc1
    rw [hc2] at hgone
    have hnone := consume_none_of_no_key cache₂ f.csrf_token hgone
    rw [← htok] at hnone
    rcases hsplit : CSRFTokenStorage.validate_and_consume cache₂
      f'.csrf_token with ⟨res, rest⟩
    rw [hsplit] at hnone
    simp only at hnone
    subst hnone
    simp [authorize_post, hsplit]

/-- Witness for C9: a mismatched resubmission consumes the entry, leaves
the code table unchanged, and a second POST with the same token is then
rejected as a CSRF miss. -/
theorem csrf_consumed_before_comparison_witness :
    authorize_post [("t1", exData)] []
        { exForm with state := "other" } 100 "codeX" =
      (.redirectError "https://x/cb" "access_denied" "CSRF validation failed"
        "other", [], []) ∧
    (authorize_post [] [] exForm 200 "codeY").1 =
      .redirectError "https://x/cb" "access_denied"
        "Invalid or expired CSRF token" "st" := by
  constructor
  · exact (csrf_consumed_before_comparison [("t1", exData)] []
      { exForm with state := "other" } 100 "codeX" exData []
      (by decide)).2.1 (by decide)
  · exact (csrf_consumed_before_comparison [("t1", exData)] []
      { exForm with state := "other" } 100 "codeX" exData []
      (by decide)).2.2.2 (by decide) [] exForm 200 "codeY" (by decide)

/-! ## C8 -/

/-- A request that is complete except for an empty `response_type`. -/
def exEmptyRtRequest : AuthorizationRequestParams :=
  { client_id := "c1"
    redirect_uri := "https://x/cb"
    response_type := ""
    scope := "tasks:read"
    state := "st"
    code_challenge := exChallenge
    code_challenge_method := "S256" }

/-- C8 counterexample: a `GET /oauth/authorize` whose required
`response_type` parameter is empty is NOT rejected at the pydantic step
with an in-page 400 — `response_type` is the one field of
`AuthorizationRequest` with no `min_length` constraint, so the empty
string passes validation and the request is redirected to `redirect_uri`
with `error=unsupported_response_type` instead. -/
theorem empty_response_type_is_redirected :
    exEmptyRtRequest.response_type = "" ∧
    (authorize_get [exClient] [] exEmptyRtRequest (some 7) "t1").1 =
      .redirectError "https://x/cb" "unsupported_response_type"
        "Only 'code' response_type is supported" "st" := by
  constructor
  · rfl
  · decide

/-- C8 (amended): a `GET /oauth/authorize` whose `code_challenge_method`
is any string other than exactly `"S256"` (including `"plain"`), or whose
`code_challenge` length lies outside 43..128, or whose `client_id`,
`redirect_uri`, `scope` or `state` is empty, is rejected at the pydantic
step with the in-page 400 error page (never a redirect) and the cache is
unchanged (the `GET` handler never creates authorization codes at all) —
even though the token endpoint's `verify_pkce` accepts the `plain`
method; an empty `response_type`, by contrast, passes validation (no
`min_length` on that field) and is redirected with
`unsupported_response_type`. -/
theorem pydantic_validation_rejections (clients : List OAuthClient)
    (cache : CsrfStore) (r : AuthorizationRequestParams) (u : Option Int)
    (tok : String) :
    ((r.code_challenge_method ≠ "S256" ∨ r.code_challenge.length < 43 ∨
        128 < r.code_challenge.length ∨ r.client_id = "" ∨
        r.redirect_uri = "" ∨ r.scope = "" ∨ r.state = "") →
      authorize_get clients cache r u tok =
        (.errorPage "Invalid Request" 400, cache)) ∧
    (∀ v ch, verify_pkce v ch "plain" = (v == ch)) := by
  constructor
  · intro h
    have hinv : ¬ (authRequestValid r = true) := by
      intro hval
      simp only [authRequestValid, Bool.and_eq_true, decide_eq_true_eq,
        beq_iff_eq] at hval
      obtain ⟨⟨⟨⟨⟨⟨h1, h2⟩, h3⟩, h4⟩, h5⟩, h6⟩, h7⟩ := hval
      rcases h with hm | hlen | hlen2 | hc | hr | hs | hst
      · exact hm h7
      · omega
      · omega
      · rw [hc] at h1; simp at h1
      · rw [hr] at h2; simp at h2
      · rw [hs] at h3; simp at h3
      · rw [hst] at h4; simp at h4
    simp [authorize_get, hinv]
  · intro v ch
    rfl

/-- Witness for C8: the `plain` method is rejected in-page at the
authorization endpoint with no cache write, while the token endpoint's
verifier accepts it. -/
theorem pydantic_validation_rejections_witness :
    authorize_get [exClient] []
        { exEmptyRtRequest with
          response_type := "code"
          code_challenge_method := "plain" } (some 7) "t1" =
      (.errorPage "Invalid Request" 400, []) ∧
    verify_pkce "abc" "abc" "plain" = ("abc" == "abc") := by
  constructor
  · exact (pydantic_validation_rejections [exClient] []
      { exEmptyRtRequest with
        response_type := "code"
        code_challenge_method := "plain" } (some 7) "t1").1
      (Or.inl (by decide))
  · exact (pydantic_validation_rejections [exClient] []
      exEmptyRtRequest (some 7) "t1").2 "abc" "abc"

/-! ## C10 -/

/-- A `(client_id, redirect_uri, scope)` triple that passes the client
registry's two validation queries. -/
def boundToClient (clients : List OAuthClient) (cid uri scope : String) :
    Prop :=
  OAuthClientCRUD.validate_redirect_uri clients cid uri = true ∧
  OAuthClientCRUD.validate_scopes clients cid scope = true

/-- The reachability invariant of the authorization endpoints: every
pending-authorization cache entry and every authorization-code row is
bound to a registered client. -/
def authInv (clients : List OAuthClient) (s : AuthState) : Prop :=
  (∀ e ∈ s.cache,
    boundToClient clients e.2.client_id e.2.redirect_uri e.2.scope) ∧
  (∀ r ∈ s.codes, boundToClient clients r.client_id r.redirect_uri r.scope)

/-- Helper: `hset` only writes the given mapping. -/
theorem generate_token_mem (store : CsrfStore) (tok : String) (d : CsrfData)
    (e : String × CsrfData)
    (h : e ∈ CSRFTokenStorage.generate_token store tok d) :
    e = (tok, d) ∨ e ∈ store := by
  induction store with
  | nil => simpa [CSRFTokenStorage.generate_token] using h
  | cons p rest ih =>
    obtain ⟨k, v⟩ := p
    by_cases hk : k == tok
    · simp only [CSRFTokenStorage.generate_token, hk, if_pos] at h
      rcases List.mem_cons.mp h with h1 | h1
      · left; rw [h1, eq_of_beq hk]
      · right; exact List.mem_cons_of_mem _ h1
    · simp only [CSRFTokenStorage.generate_token, hk, Bool.false_eq_true,
        if_false] at h
      rcases List.mem_cons.mp h with h1 | h1
      · right; exact h1 ▸ List.mem_cons_self _ _
      · rcases ih h1 with h2 | h2
        · left; exact h2
        · right; exact List.mem_cons_of_mem _ h2

/-- Helper: `authorize_get` only caches entries it has validated against
the client registry. -/
theorem authorize_get_cache_mem (clients : List OAuthClient)
    (cache : CsrfStore) (r : AuthorizationRequestParams) (u : Option Int)
    (tok : String) (e : String × CsrfData)
    (h : e ∈ (authorize_get clients cache r u tok).2) :
    e ∈ cache ∨
      boundToClient clients e.2.client_id e.2.redirect_uri e.2.scope := by
  by_cases h1 : authRequestValid r
  case neg => left; simpa [authorize_get, h1] using h
  by_cases h2 : r.response_type = "code"
  case neg => left; simpa [authorize_get, h1, h2] using h
  cases hc : OAuthClientCRUD.get_by_client_id clients r.client_id with
  | none => left; simpa [authorize_get, h1, h2, hc] using h
  | some client =>
    by_cases hact : client.is_active
    case neg => left; simpa [authorize_get, h1, h2, hc, hact] using h
    by_cases hru : OAuthClientCRUD.validate_redirect_uri clients r.client_id
      r.redirect_uri
    case neg => left; simpa [authorize_get, h1, h2, hc, hact, hru] using h
    by_cases hsc : OAuthClientCRUD.validate_scopes clients r.client_id r.scope
    case neg =>
      left; simpa [authorize_get, h1, h2, hc, hact, hru, hsc] using h
    cases u with
    | none => left; simpa [authorize_get, h1, h2, hc, hact, hru, hsc] using h
    | some uid =>
      have h' : e ∈ CSRFTokenStorage.generate_token cache tok
          { client_id := r.client_id
            redirect_uri := r.redirect_uri
            scope := r.scope
            state := r.state
            code_challenge := r.code_challenge
            code_challenge_method := r.code_challenge_method
            user_id := toString uid } := by
        simpa [authorize_get, h1, h2, hc, hact, hru, hsc] using h
      rcases generate_token_mem cache tok _ e h' with h3 | h3
      · right
        rw [h3]
        exact ⟨hru, hsc⟩
      · left; exact h3

/-- Helper: `authorize_post` never adds cache entries. -/
theorem authorize_post_cache_mem (cache : CsrfStore)
    (codes : List OAuthAuthorizationCode) (f : ConsentForm) (now : Int)
    (fc : String) (e : String × CsrfData)
    (h : e ∈ (authorize_post cache codes f now fc).2.1) : e ∈ cache := by
  rcases hsplit : CSRFTokenStorage.validate_and_consume cache f.csrf_token
    with ⟨res, cache₂⟩
  have hsub : ∀ x ∈ cache₂, x ∈ cache := fun x hx =>
    consume_snd_subset cache f.csrf_token x (by rw [hsplit]; exact hx)
  apply hsub
  cases res with
  | none => simpa [authorize_post, hsplit] using h
  | some d =>
    by_cases hm : formMatchesData f d
    · by_cases ha : f.approve
      · simpa [authorize_post, hsplit, hm, ha,
          OAuthAuthorizationCodeCRUD.create] using h
      · simpa [authorize_post, hsplit, hm, ha] using h
    · simpa [authorize_post, hsplit, hm] using h

/-- Helper: every code row `authorize_post` appends copies the
`client_id`, `redirect_uri` and `scope` of a cached entry. -/
theorem authorize_post_codes_mem (cache : CsrfStore)
    (codes : List OAuthAuthorizationCode) (f : ConsentForm) (now : Int)
    (fc : String) (r' : OAuthAuthorizationCode)
    (h : r' ∈ (authorize_post cache codes f now fc).2.2) :
    r' ∈ codes ∨ ∃ d, (f.csrf_token, d) ∈ cache ∧
      r'.client_id = d.client_id ∧ r'.redirect_uri = d.redirect_uri ∧
      r'.scope = d.scope := by
  rcases hsplit : CSRFTokenStorage.validate_and_consume cache f.csrf_token
    with ⟨res, cache₂⟩
  cases res with
  | none => left; simpa [authorize_post, hsplit] using h
  | some d =>
    have hd : (f.csrf_token, d) ∈ cache :=
      consume_some_mem cache f.csrf_token d (by rw [hsplit])
    by_cases hm : formMatchesData f d
    · by_cases ha : f.approve
      · have h' : r' ∈ codes ∨ r' =
            { code := fc
              client_id := f.client_id
              user_id := (pyInt? d.user_id).getD 0
              redirect_uri := f.redirect_uri
              scope := f.scope
              code_challenge := some f.code_challenge
              code_challenge_method := some f.code_challenge_method
              expires_at := now + 600
              is_used := false
              used_at := none } := by
          simpa [authorize_post, hsplit, hm, ha,
            OAuthAuthorizationCodeCRUD.create] using h
        rcases h' with h1 | h1
        · left; exact h1
        · right
          obtain ⟨e1, e2, e3, _, _, _⟩ := formMatchesData_spec f d hm
          refine ⟨d, hd, ?_, ?_, ?_⟩ <;> rw [h1]
          · exact e1.symm
          · exact e2.symm
          · exact e3.symm
      · left; simpa [authorize_post, hsplit, hm, ha] using h
    · left; simpa [authorize_post, hsplit, hm] using h

/-- Helper: one request preserves the invariant. -/
theorem authStep_preserves (clients : List OAuthClient) (s : AuthState)
    (op : AuthOp) (hs : authInv clients s) :
    authInv clients (authStep clients s op) := by
  cases op with
  | get r u tok =>
    refine ⟨?_, hs.2⟩
    intro e he
    rcases authorize_get_cache_mem clients s.cache r u tok e he with h1 | h1
    · exact hs.1 e h1
    · exact h1
  | post f now fc =>
    rcases hpost : authorize_post s.cache s.codes f now fc with
      ⟨resp, cache', codes'⟩
    constructor
    · intro e he
      simp only [authStep, hpost] at he
      refine hs.1 e (authorize_post_cache_mem s.cache s.codes f now fc e ?_)
      rw [hpost]; exact he
    · intro r' hr'
      simp only [authStep, hpost] at hr'
      have h' : r' ∈ (authorize_post s.cache s.codes f now fc).2.2 := by
        rw [hpost]; exact hr'
      rcases authorize_post_codes_mem s.cache s.codes f now fc r' h' with
        h1 | ⟨d, hd, e1, e2, e3⟩
      · exact hs.2 r' h1
      · have hb := hs.1 (f.csrf_token, d) hd
        rw [boundToClient, e1, e2, e3]
        exact hb

/-- Helper: the invariant holds in every reachable state. -/
theorem authInv_run (clients : List OAuthClient) (ops : List AuthOp) :
    authInv clients (authRun clients ops) := by
  suffices h : ∀ s, authInv clients s →
      authInv clients (ops.foldl (authStep clients) s) from
    h ⟨[], []⟩ ⟨by simp, by simp⟩
  induction ops with
  | nil => intro s hs; exact hs
  | cons op rest ih =>
    intro s hs
    exact ih _ (authStep_preserves clients s op hs)

/-- Helper: what a passing redirect-URI validation certifies. -/
theorem validate_redirect_uri_spec (db : List OAuthClient) (cid uri : String)
    (h : OAuthClientCRUD.validate_redirect_uri db cid uri = true) :
    ∃ c, OAuthClientCRUD.get_by_client_id db cid = some c ∧
      c.is_active = true ∧ uri ∈ splitCommaStrip c.redirect_uris := by
  unfold OAuthClientCRUD.validate_redirect_uri at h
  cases hc : OAuthClientCRUD.get_by_client_id db cid with
  | none => rw [hc] at h; cases h
  | some c =>
    rw [hc] at h
    by_cases hact : c.is_active
    · refine ⟨c, rfl, hact, ?_⟩
      simp only [hact, not_true_eq_false, if_false] at h
      simpa using h
    · simp [hact] at h

/-- Helper: what a passing scope validation certifies. -/
theorem validate_scopes_spec (db : List OAuthClient) (cid scopes : String)
    (h : OAuthClientCRUD.validate_scopes db cid scopes = true) :
    ∃ c, OAuthClientCRUD.get_by_client_id db cid = some c ∧
      c.is_active = true ∧ scopeSubset scopes c.allowed_scopes = true := by
  unfold OAuthClientCRUD.validate_scopes at h
  cases hc : OAuthClientCRUD.get_by_client_id db cid with
  | none => rw [hc] at h; cases h
  | some c =>
    rw [hc] at h
    by_cases hact : c.is_active
    · refine ⟨c, rfl, hact, ?_⟩
      simpa [hact] using h
    · simp [hact] at h

/-- C10: in every state reachable through the authorization endpoints
from the empty stores, every authorization-code row belongs to a
registered, active client, its redirect URI is an exact member of that
client's registered set, and its scope is a subset of that client's
allowed scopes. -/
theorem authorization_codes_bound_to_registry (clients : List OAuthClient)
    (ops : List AuthOp) (row : OAuthAuthorizationCode)
    (hrow : row ∈ (authRun clients ops).codes) :
    ∃ c, OAuthClientCRUD.get_by_client_id clients row.client_id = some c ∧
      c.is_active = true ∧
      row.redirect_uri ∈ splitCommaStrip c.redirect_uris ∧
      scopeSubset row.scope c.allowed_scopes = true := by
  have hinv := (authInv_run clients ops).2 row hrow
  obtain ⟨c1, hc1, hact1, hmem⟩ := validate_redirect_uri_spec clients
    row.client_id row.redirect_uri hinv.1
  obtain ⟨c2, hc2, _, hsub⟩ := validate_scopes_spec clients row.client_id
    row.scope hinv.2
  have hcc : c1 = c2 := by
    have := hc1.symm.trans hc2
    exact Option.some.inj this
  exact ⟨c1, hc1, hact1, hmem, hcc ▸ hsub⟩

/-- A well-formed authorization request for `exClient`. -/
def exGetRequest : AuthorizationRequestParams :=
  { client_id := "c1"
    redirect_uri := "https://x/cb"
    response_type := "code"
    scope := "tasks:read"
    state := "st"
    code_challenge := exChallenge
    code_challenge_method := "S256" }

/-- A consent-screen round trip: validated `GET`, then approving `POST`. -/
def exOps : List AuthOp :=
  [.get exGetRequest (some 7) "t1", .post exForm 100 "codeX"]

/-- Witness for C10: a concrete `GET`-then-`POST` run creates one code
row, and that row is bound to the registered client. -/
theorem authorization_codes_bound_to_registry_witness :
    ({ code := "codeX", client_id := "c1", user_id := 7,
       redirect_uri := "https://x/cb", scope := "tasks:read",
       code_challenge := some exChallenge,
       code_challenge_method := some "S256", expires_at := 700,
       is_used := false, used_at := none } : OAuthAuthorizationCode) ∈
      (authRun [exClient] exOps).codes ∧
    ∃ c, OAuthClientCRUD.get_by_client_id [exClient] "c1" = some c ∧
      c.is_active = true ∧
      "https://x/cb" ∈ splitCommaStrip c.redirect_uris ∧
      scopeSubset "tasks:read" c.allowed_scopes = true := by
  constructor
  · decide
  · exact authorization_codes_bound_to_registry [exClient] exOps
      { code := "codeX", client_id := "c1", user_id := 7,
        redirect_uri := "https://x/cb", scope := "tasks:read",
        code_challenge := some exChallenge,
        code_challenge_method := some "S256", expires_at := 700,
        is_used := false, used_at := none } (by decide)

end Mindflow
